import Mathlib

/-!
Verification of the CUPTI GPU tracer, the IndexFlatMap dataset operator and
the MLIR-to-HLO exporter excerpted from this repository.

The definitions below are a shallow embedding of the C++ sources:

* `xla/backends/profiler/gpu/cupti_tracer.cc` / `.h`
* `tensorflow/core/kernels/data/experimental/index_flat_map_dataset_op.cc`
* `xla/translate/mhlo_to_hlo/mlir_hlo_to_hlo.cc`

Machine integers are modelled as `Nat`/`Int` (sizes and ids never overflow
in the properties considered; where a C++ conversion truncates, the
truncation is written out explicitly).  Fallible code returns `Except`.
Statics and thread-local data are passed as explicit state.
-/

namespace TfModel

/-- Error codes distinguished by `absl::Status` in the embedded code. -/
inductive ErrKind where
  | invalidArgument
  | unimplemented
  | internal
  | unavailable
  | permissionDenied
  | failedPrecondition
  deriving DecidableEq, Repr

/-- An `absl::Status` error payload: error code plus message. -/
structure StatusErr where
  kind : ErrKind
  msg : String
  deriving DecidableEq, Repr

end TfModel

namespace CuptiModel

/-!
## AppendOnlyBuffer (`cupti_tracer.cc` lines 1080-1141)

The C++ class keeps a `std::list` of blocks together with a pointer
`last_block_` to the block being filled.  The embedding keeps the filled
blocks (`front_blocks`, in order) and the block currently pointed to by
`last_block_` separately; `GetBlocks()` is their concatenation.
-/

/-- `AppendOnlyBuffer<T>`: block list plus running element count. -/
structure AppendOnlyBuffer (T : Type) where
  block_size : Nat
  front_blocks : List (List T)
  last_block : List T
  size : Nat
  deriving Repr

/-- `kBlockSize = 32768`. -/
def AppendOnlyBuffer.kBlockSize : Nat := 32768

/-- `Clear()`: drop all blocks and start a fresh empty block. -/
def AppendOnlyBuffer.Clear {T : Type} (b : AppendOnlyBuffer T) : AppendOnlyBuffer T :=
  { b with front_blocks := [], last_block := [], size := 0 }

/-- The constructor `AppendOnlyBuffer(block_size)`:
`block_size_ = max(1024, block_size)` followed by `Clear()`. -/
def AppendOnlyBuffer.new (T : Type) (bs : Nat := AppendOnlyBuffer.kBlockSize) :
    AppendOnlyBuffer T :=
  AppendOnlyBuffer.Clear { block_size := max 1024 bs, front_blocks := [], last_block := [],
                           size := 0 }

/-- `GetBlocks()`: the block list, completed blocks first, in order. -/
def AppendOnlyBuffer.GetBlocks {T : Type} (b : AppendOnlyBuffer T) : List (List T) :=
  b.front_blocks ++ [b.last_block]

/-- `Append(value)`: start a new block if the current one reached
`block_size_`, then push the value and bump `size_`. -/
def AppendOnlyBuffer.Append {T : Type} (b : AppendOnlyBuffer T) (v : T) : AppendOnlyBuffer T :=
  if b.block_size ≤ b.last_block.length then
    { b with front_blocks := b.front_blocks ++ [b.last_block], last_block := [v],
             size := b.size + 1 }
  else
    { b with last_block := b.last_block ++ [v], size := b.size + 1 }

/-- `Emplace(params...)` constructs the element and appends it; for the
embedding it coincides with `Append` of the constructed element. -/
def AppendOnlyBuffer.Emplace {T : Type} (b : AppendOnlyBuffer T) (v : T) : AppendOnlyBuffer T :=
  AppendOnlyBuffer.Append b v

/-- `Size()`. -/
def AppendOnlyBuffer.Size {T : Type} (b : AppendOnlyBuffer T) : Nat := b.size

/-- `LastElement()`: address of the last element of the last block when
`size_ > 0`, otherwise `nullptr`. -/
def AppendOnlyBuffer.LastElement {T : Type} (b : AppendOnlyBuffer T) : Option T :=
  if b.size > 0 then b.last_block.getLast? else none

/-- One client operation on an `AppendOnlyBuffer`, for stating the C9
invariant over arbitrary operation sequences. -/
inductive BufOp (T : Type) where
  | append (v : T)
  | emplace (v : T)
  | clear
  deriving Repr

/-- Run one operation. -/
def AppendOnlyBuffer.step {T : Type} (b : AppendOnlyBuffer T) : BufOp T → AppendOnlyBuffer T
  | .append v => b.Append v
  | .emplace v => b.Emplace v
  | .clear => b.Clear

/-- Run a sequence of operations from left to right. -/
def AppendOnlyBuffer.run {T : Type} (b : AppendOnlyBuffer T) (ops : List (BufOp T)) :
    AppendOnlyBuffer T :=
  ops.foldl AppendOnlyBuffer.step b

/-- The elements appended (by `Append` or `Emplace`) since the last `clear`
in the operation sequence, in order. -/
def appendedSinceClear {T : Type} (ops : List (BufOp T)) : List T :=
  ops.foldl (fun acc op =>
    match op with
    | .append v => acc ++ [v]
    | .emplace v => acc ++ [v]
    | .clear => []) []

/-!
## CuptiTracerEvent data model

`CuptiTracerEvent` is declared in `cupti_collector.h` (not part of this
excerpt); the fields embedded here are exactly the ones the functions in
`cupti_tracer.cc` read or write.  The per-type payload union is modelled
as an inductive.  The C++ `annotation` and `nvtx_range` fields are named
`annot` and `nvtx` here.
-/

/-- `CuptiTracerEventType` (values used by `cupti_tracer.cc`). -/
inductive CuptiTracerEventType where
  | Kernel
  | MemcpyH2D
  | MemcpyD2H
  | MemcpyD2D
  | MemcpyP2P
  | MemcpyOther
  | MemoryAlloc
  | MemoryFree
  | Memset
  | Overhead
  | UnifiedMemory
  | Generic
  | MemoryResidency
  | HostRegister
  | HostUnregister
  | Unsupported
  deriving DecidableEq, Repr

/-- `CuptiTracerEventSource`. -/
inductive CuptiTracerEventSource where
  | Invalid
  | DriverCallback
  | Activity
  deriving DecidableEq, Repr

/-- `kernel_info` payload fields written by `AddKernelActivityEvent`. -/
structure KernelInfo where
  registers_per_thread : Nat := 0
  static_shared_memory_usage : Nat := 0
  dynamic_shared_memory_usage : Nat := 0
  block_x : Nat := 0
  block_y : Nat := 0
  block_z : Nat := 0
  grid_x : Nat := 0
  grid_y : Nat := 0
  grid_z : Nat := 0
  channel_id : Nat := 0
  channel_type : Nat := 0
  deriving DecidableEq, Repr

/-- `memcpy_info` payload fields. -/
structure MemcpyInfo where
  copy_kind : Nat := 0
  num_bytes : Nat := 0
  destination : Nat := 0
  async : Bool := false
  src_mem_kind : Nat := 0
  dst_mem_kind : Nat := 0
  channel_id : Nat := 0
  channel_type : Nat := 0
  deriving DecidableEq, Repr

/-- `memset_info` payload fields. -/
structure MemsetInfo where
  num_bytes : Nat := 0
  mem_kind : Nat := 0
  async : Bool := false
  channel_id : Nat := 0
  channel_type : Nat := 0
  deriving DecidableEq, Repr

/-- `memory_residency_info` payload fields. -/
structure MemoryResidencyInfo where
  num_bytes : Nat := 0
  mem_kind : Nat := 0
  address : Nat := 0
  deriving DecidableEq, Repr

/-- The per-event payload union. -/
inductive EventInfo where
  | nothing
  | kernel (ki : KernelInfo)
  | memcpy (mi : MemcpyInfo)
  | memset (mi : MemsetInfo)
  | memoryResidency (mi : MemoryResidencyInfo)
  deriving DecidableEq, Repr

/-- `CuptiTracerEvent` with the fields used in `cupti_tracer.cc`. -/
structure CuptiTracerEvent where
  type : CuptiTracerEventType := .Unsupported
  source : CuptiTracerEventSource := .Invalid
  name : String := ""
  annot : String := ""
  nvtx : String := ""
  start_time_ns : Nat := 0
  end_time_ns : Nat := 0
  device_id : Nat := 0
  context_id : Nat := 0
  stream_id : Nat := 0
  correlation_id : Nat := 0
  thread_id : Nat := 0
  info : EventInfo := .nothing
  deriving DecidableEq, Repr

/-- The zero-initialized `CuptiTracerEvent{}`. -/
def CuptiTracerEvent.empty : CuptiTracerEvent := {}

/-!
## CallbackAnnotationsAndEvents (`cupti_tracer.cc` lines 1143-1227)
-/

/-- `EventWithAnnotation`: correlation id, interned annotation and
nvtx-range strings, and an (initially empty) event. -/
structure EventWithAnnotation where
  correlation_id : Nat
  annot : String
  nvtx : String
  event : CuptiTracerEvent := CuptiTracerEvent.empty
  deriving DecidableEq, Repr

/-- The static members of `CallbackAnnotationsAndEvents`, passed as
explicit state: the per-process caps and the global event counter. -/
structure CallbackGlobals where
  s_max_annotation_strings : Nat := 1024 * 1024
  s_max_callback_api_events : Nat := 2 * 1024 * 1024
  s_callback_api_event_count : Nat := 0
  deriving DecidableEq, Repr

/-- `absl::node_hash_set<std::string>::emplace`: insert if absent; the
second component is the stored string the returned iterator points to. -/
def setEmplace (s : List String) (x : String) : List String × String :=
  if x ∈ s then (s, x) else (s ++ [x], x)

/-- The per-thread `CallbackAnnotationsAndEvents` buffer. -/
structure CallbackAnnotationsAndEvents where
  annotations : List String := []
  nvtx_ranges : List String := []
  event_annotation_buffer : AppendOnlyBuffer EventWithAnnotation :=
    AppendOnlyBuffer.new EventWithAnnotation
  num_dropped_events : Nat := 0
  deriving Repr

/-- `CallbackAnnotationsAndEvents::Add` (lines 1181-1207).  Returns the C++
return value together with the updated globals and per-thread state.
`device_id` is a parameter of the C++ function but is not read by it. -/
def CallbackAnnotationsAndEvents.Add (g : CallbackGlobals)
    (st : CallbackAnnotationsAndEvents) (device_id correlation_id : Nat)
    (annot nvtx : String) :
    Bool × CallbackGlobals × CallbackAnnotationsAndEvents :=
  if g.s_max_callback_api_events = 0 ∨
      g.s_callback_api_event_count < g.s_max_callback_api_events then
    let g' := { g with s_callback_api_event_count := g.s_callback_api_event_count + 1 }
    let too_many_annotations : Bool :=
      decide (0 < g.s_max_annotation_strings) &&
      decide (g.s_max_annotation_strings ≤ st.annotations.length)
    let annPair :=
      if too_many_annotations || annot.isEmpty then (st.annotations, "")
      else setEmplace st.annotations annot
    let nvtxPair :=
      if too_many_annotations || nvtx.isEmpty then (st.nvtx_ranges, "")
      else setEmplace st.nvtx_ranges nvtx
    let st' := { st with
      annotations := annPair.1
      nvtx_ranges := nvtxPair.1
      event_annotation_buffer := st.event_annotation_buffer.Emplace
        { correlation_id := correlation_id, annot := annPair.2, nvtx := nvtxPair.2 } }
    (true, g', st')
  else
    (false, g, { st with num_dropped_events := st.num_dropped_events + 1 })
  -- `ignore device_id` (unused in the C++ body as well)

/-- `CallbackAnnotationsAndEvents::clear()`. -/
def CallbackAnnotationsAndEvents.clear (st : CallbackAnnotationsAndEvents) :
    CallbackAnnotationsAndEvents :=
  { st with annotations := [], nvtx_ranges := [],
            event_annotation_buffer := st.event_annotation_buffer.Clear,
            num_dropped_events := 0 }

/-!
## HandleCallback (`cupti_tracer.cc` lines 1675-1720)
-/

/-- `CUpti_CallbackDomain` values distinguished by `HandleCallback`. -/
inductive CallbackDomain where
  | driverApi
  | nvtx
  | other
  deriving DecidableEq, Repr

/-- `cbdata->callbackSite`. -/
inductive ApiCallbackSite where
  | enter
  | exit
  deriving DecidableEq, Repr

/-- The fields of `CUpti_CallbackData` read by `HandleCallback`, plus the
outcome of the `GetDeviceId` CUPTI call on `cbdata->context`
(`none` models a CUPTI error). -/
structure CallbackData where
  callbackSite : ApiCallbackSite
  context_is_null : Bool
  correlationId : Nat
  getDeviceIdResult : Option Nat
  deriving DecidableEq, Repr

/-- `CUPTI_DRIVER_TRACE_CBID_cuLaunchCooperativeKernelMultiDevice` (the
concrete enum value is irrelevant; only equality with it is tested). -/
def cbidLaunchCooperativeKernelMultiDevice : Nat := 342

/-- Tracer state read by `HandleCallback`: tracing flags, gpu count, and
the current annotation stack / NVTX range of the calling thread. -/
structure HandleCallbackEnv where
  api_tracing_enabled : Bool
  hook_present : Bool
  internalCuCall : Nat
  num_gpus : Nat
  annotationStackTop : String
  currentNvtxRange : String
  deriving DecidableEq, Repr

/-- What `HandleCallback` did: which early return was taken, or which
driver hook was invoked. -/
inductive CallbackEffect where
  | ignoredNotEnabled
  | ignoredNoHook
  | nvtxHandled
  | ignoredOtherDomain
  | ignoredInternalCall
  | errorNoContext
  | errorGetDeviceId
  | errorInvalidDevice
  | enterHookInvoked
  | exitHookInvoked
  | exitEventDropped
  deriving DecidableEq, Repr

/-- `CuptiTracer::HandleCallback`.  Returns the effect together with the
updated callback globals and the calling thread's buffer. -/
def HandleCallback (env : HandleCallbackEnv) (g : CallbackGlobals)
    (thr : CallbackAnnotationsAndEvents) (domain : CallbackDomain) (cbid : Nat)
    (cbdata : CallbackData) :
    CallbackEffect × CallbackGlobals × CallbackAnnotationsAndEvents :=
  if env.api_tracing_enabled = false then (.ignoredNotEnabled, g, thr)
  else if env.hook_present = false then (.ignoredNoHook, g, thr)
  else if domain = CallbackDomain.nvtx then (.nvtxHandled, g, thr)
  else if domain ≠ CallbackDomain.driverApi then (.ignoredOtherDomain, g, thr)
  else if env.internalCuCall ≠ 0 then (.ignoredInternalCall, g, thr)
  else if cbdata.context_is_null then (.errorNoContext, g, thr)
  else
    match cbdata.getDeviceIdResult with
    | none => (.errorGetDeviceId, g, thr)
    | some device_id =>
      if env.num_gpus ≤ device_id then (.errorInvalidDevice, g, thr)
      else
        match cbdata.callbackSite with
        | .enter => (.enterHookInvoked, g, thr)
        | .exit =>
          let annot := env.annotationStackTop
          let nvtx :=
            if cbid = cbidLaunchCooperativeKernelMultiDevice then ""
            else env.currentNvtxRange
          let r := CallbackAnnotationsAndEvents.Add g thr device_id
            cbdata.correlationId annot nvtx
          if r.1 then (.exitHookInvoked, r.2.1, r.2.2)
          else (.exitEventDropped, r.2.1, r.2.2)

/-!
## Collector model

`CuptiTraceCollector`, `AnnotationMap` and `AnnotationInfo` live in
`cupti_collector.h`, which is not part of this excerpt.  They are
modelled from the spec here: the collector receives events via
`AddEvent`, receives the merged annotation map via `SetAnnotationMap`,
serves `LookUpAnnotation(device_id, correlation_id)` lookups into that
map, and is flushed once at the end.  The collector keeps a log of the
calls made to it so temporal claims can be stated.
-/

/-- `AnnotationInfo`: an annotation string and an nvtx-range string
(fields `annotation` and `nvtx_range` in C++). -/
structure AnnotationInfo where
  annot : String := ""
  nvtx : String := ""
  deriving DecidableEq, Repr

/-- Modelled from the spec: the merged annotation map built by
`GatherAllCallbackAnnotationsAndEvents` is keyed by correlation id (the
tracer emplaces `(correlation_id, AnnotationInfo)` pairs into it). -/
abbrev AnnotationMap : Type := List (Nat × AnnotationInfo)

/-- `emplace` of a hash map: insert only if the key is absent. -/
def AnnotationMap.emplace (m : AnnotationMap) (k : Nat) (info : AnnotationInfo) :
    AnnotationMap :=
  match List.lookup k m with
  | some _ => m
  | none => List.append m [(k, info)]

/-- Modelled from the spec: `collector->LookUpAnnotation(device_id,
correlation_id)` returns the map entry for the correlation id, or an
empty `AnnotationInfo` when there is none (`cupti_collector.h` is not in
this excerpt; the map built in `cupti_tracer.cc` has no per-device
structure, so the `device_id` argument cannot affect the lookup). -/
def AnnotationMap.lookUp (m : AnnotationMap) (device_id correlation_id : Nat) :
    AnnotationInfo :=
  (List.lookup correlation_id m).getD {}

/-- One call made to the collector, for the temporal claims. -/
inductive CollectorOp where
  | setMap (m : AnnotationMap)
  | addEvent (e : CuptiTracerEvent)
  | flushCall
  deriving Repr

/-- Modelled from the spec: the collector state — its annotation map, the
events it received, the option limits the tracer reads from it, and the
log of calls made to it. -/
structure CuptiTraceCollector where
  annotationMap : AnnotationMap := []
  events : List CuptiTracerEvent := []
  max_activity_api_events : Nat := 0
  max_annotation_strings : Nat := 0
  max_callback_api_events : Nat := 0
  log : List CollectorOp := []

/-- `collector->AddEvent(std::move(event))`. -/
def CuptiTraceCollector.AddEvent (c : CuptiTraceCollector) (e : CuptiTracerEvent) :
    CuptiTraceCollector :=
  { c with events := c.events ++ [e], log := c.log ++ [.addEvent e] }

/-- `collector->SetAnnotationMap(std::move(merged_annotation_map_))`. -/
def CuptiTraceCollector.SetAnnotationMap (c : CuptiTraceCollector) (m : AnnotationMap) :
    CuptiTraceCollector :=
  { c with annotationMap := m, log := c.log ++ [.setMap m] }

/-- `collector->Flush()`. -/
def CuptiTraceCollector.Flush (c : CuptiTraceCollector) : CuptiTraceCollector :=
  { c with log := c.log ++ [.flushCall] }

/-- `collector->LookUpAnnotation(device_id, correlation_id)`. -/
def CuptiTraceCollector.LookUpAnnotation (c : CuptiTraceCollector)
    (device_id correlation_id : Nat) : AnnotationInfo :=
  c.annotationMap.lookUp device_id correlation_id

/-!
## Activity records and the per-kind event builders
(`cupti_tracer.cc` lines 737-1003)
-/

/-- Fields of `CUpti_ActivityKernel*` / `CUpti_ActivityCdpKernel` read by
`AddKernelActivityEvent`. -/
structure KernelRecord where
  name : String
  start : Nat
  «end» : Nat
  deviceId : Nat
  contextId : Nat
  streamId : Nat
  correlationId : Nat
  registersPerThread : Nat
  staticSharedMemory : Nat
  dynamicSharedMemory : Nat
  blockX : Nat
  blockY : Nat
  blockZ : Nat
  gridX : Nat
  gridY : Nat
  gridZ : Nat
  channelID : Nat
  channelType : Nat
  deriving DecidableEq, Repr

/-- `CUpti_ActivityMemcpyKind` values tested by the code (the numeric
codes follow `cupti_activity.h`; only `copy_kind` stores the number). -/
inductive MemcpyKindCode where
  | unknown
  | htod
  | dtoh
  | dtod
  | ptop
  | otherKind (code : Nat)
  deriving DecidableEq, Repr

/-- Numeric value of a `CUpti_ActivityMemcpyKind` (as in `cupti_activity.h`:
UNKNOWN=0, HTOD=1, DTOH=2, DTOD=8, PTOP=10). -/
def MemcpyKindCode.code : MemcpyKindCode → Nat
  | .unknown => 0
  | .htod => 1
  | .dtoh => 2
  | .dtod => 8
  | .ptop => 10
  | .otherKind c => c

/-- Fields of `CuptiActivityMemcpyTy` read by `AddMemcpyActivityEvent`. -/
structure MemcpyRecord where
  copyKind : MemcpyKindCode
  start : Nat
  «end» : Nat
  deviceId : Nat
  contextId : Nat
  streamId : Nat
  correlationId : Nat
  bytes : Nat
  asyncFlag : Bool
  srcKind : Nat
  dstKind : Nat
  channelID : Nat
  channelType : Nat
  deriving DecidableEq, Repr

/-- Fields of `CuptiActivityMemcpyP2PTy` read by
`AddMemcpyP2PActivityEvent`. -/
structure MemcpyP2PRecord where
  start : Nat
  «end» : Nat
  srcDeviceId : Nat
  dstDeviceId : Nat
  contextId : Nat
  streamId : Nat
  correlationId : Nat
  bytes : Nat
  asyncFlag : Bool
  srcKind : Nat
  dstKind : Nat
  channelID : Nat
  channelType : Nat
  deriving DecidableEq, Repr

/-- `CUpti_ActivityOverheadKind` values tested by
`getActivityOverheadKindString`. -/
inductive OverheadKind where
  | driverCompiler
  | cuptiBufferFlush
  | cuptiInstrumentation
  | cuptiResource
  | otherKind (code : Nat)
  deriving DecidableEq, Repr

/-- The `CUpti_ActivityObjectKind` discriminator together with the part
of the `objectId` union the code reads for it. -/
inductive ActivityObject where
  | unknown
  | thread (threadId : Nat)
  | process (threadId : Nat)
  | stream (deviceId streamId : Nat)
  | device (deviceId : Nat)
  | context (deviceId : Nat)
  | unexpected (code : Nat)
  deriving DecidableEq, Repr

/-- Fields of `CUpti_ActivityOverhead` read by
`AddCuptiOverheadActivityEvent`. -/
structure OverheadRecord where
  overheadKind : OverheadKind
  start : Nat
  «end» : Nat
  objectKind : ActivityObject
  deriving DecidableEq, Repr

/-- `CUpti_ActivityUnifiedMemoryCounterKind` values tested by the code. -/
inductive UMCounterKind where
  | bytesTransferHtoD
  | bytesTransferDtoH
  | cpuPageFaultCount
  | gpuPageFault
  | thrashing
  | throttling
  | remoteMap
  | bytesTransferDtoD
  | otherKind (code : Nat)
  deriving DecidableEq, Repr

/-- Numeric value of a `CUpti_ActivityUnifiedMemoryCounterKind` (as in
`cupti_activity.h`; used only as a pseudo-stream-id offset). -/
def UMCounterKind.code : UMCounterKind → Nat
  | .bytesTransferHtoD => 1
  | .bytesTransferDtoH => 2
  | .cpuPageFaultCount => 3
  | .gpuPageFault => 4
  | .thrashing => 5
  | .throttling => 6
  | .remoteMap => 7
  | .bytesTransferDtoD => 8
  | .otherKind c => c

/-- Fields of `CUpti_ActivityUnifiedMemoryCounter2` read by
`AddUnifiedMemoryActivityEvent`. -/
structure UnifiedMemoryRecord where
  counterKind : UMCounterKind
  start : Nat
  «end» : Nat
  srcId : Nat
  dstId : Nat
  value : Nat
  deriving DecidableEq, Repr

/-- Fields of `CUpti_ActivityMemory` read by `AddMemoryActivityEvent`. -/
structure MemoryRecord where
  memoryKind : Nat
  start : Nat
  «end» : Nat
  deviceId : Nat
  contextId : Nat
  bytes : Nat
  address : Nat
  deriving DecidableEq, Repr

/-- Fields of `CuptiActivityMemsetTy` read by `AddMemsetActivityEvent`. -/
structure MemsetRecord where
  memoryKind : Nat
  start : Nat
  «end» : Nat
  deviceId : Nat
  correlationId : Nat
  contextId : Nat
  streamId : Nat
  bytes : Nat
  asyncFlag : Bool
  channelID : Nat
  channelType : Nat
  deriving DecidableEq, Repr

/-- `CUpti_ActivitySynchronizationType` values tested by the code. -/
inductive SyncType where
  | eventSynchronize
  | streamWaitEvent
  | streamSynchronize
  | contextSynchronize
  | otherKind (code : Nat)
  deriving DecidableEq, Repr

/-- Fields of `CUpti_ActivitySynchronization` read by
`AddSynchronizationActivityEvent`. -/
structure SynchronizationRecord where
  type : SyncType
  start : Nat
  «end» : Nat
  correlationId : Nat
  contextId : Nat
  deriving DecidableEq, Repr

/-- One record of an activity buffer, tagged with its
`CUpti_ActivityKind` as dispatched in `ConvertActivityBuffer`. -/
inductive ActivityRecord where
  | kernel (k : KernelRecord)
  | cdpKernel (k : KernelRecord)
  | memcpy (m : MemcpyRecord)
  | memcpy2 (m : MemcpyP2PRecord)
  | overhead (o : OverheadRecord)
  | unifiedMemoryCounter (u : UnifiedMemoryRecord)
  | memory (m : MemoryRecord)
  | memset (m : MemsetRecord)
  | synchronization (s : SynchronizationRecord)
  | unsupportedKind (kind : Nat)
  deriving DecidableEq, Repr

/-- `getActivityOverheadKindString`. -/
def getActivityOverheadKindString : OverheadKind → String
  | .driverCompiler => "COMPILER"
  | .cuptiBufferFlush => "BUFFER_FLUSH"
  | .cuptiInstrumentation => "INSTRUMENTATION"
  | .cuptiResource => "RESOURCE"
  | .otherKind _ => "<UNKNOWN>"

/-- `getActivityUnifiedMemoryKindString`. -/
def getActivityUnifiedMemoryKindString : UMCounterKind → String
  | .bytesTransferHtoD => "UM_BYTES_TRANSFER_HTOD"
  | .bytesTransferDtoH => "UM_BYTES_TRANSFER_DTOH"
  | .cpuPageFaultCount => "UM_CPU_PAGE_FAULT"
  | .gpuPageFault => "UM_GPU_PAGE_FAULT"
  | .thrashing => "UM_THRASHING"
  | .throttling => "UM_THROTTLING"
  | .remoteMap => "UM_REMOTE_MAP"
  | .bytesTransferDtoD => "UM_BYTES_TRANSFER_DTOD"
  | .otherKind _ => "<UNKNOWN>"

/-- Modelled from the spec: `GetMemoryKindName` is declared in
`cupti_collector.h` (not in this excerpt); it names a device memory
kind.  The exact strings do not affect any claim. -/
def GetMemoryKindName (kind : Nat) : String :=
  "MemoryKind " ++ toString kind

/-- `TF_CUPTI_HAS_CHANNEL_ID`: this embedding takes the CUDA >= 11.6
configuration, where the macro is 1. -/
def tfCuptiHasChannelId : Bool := true

/-- `AddKernelActivityEvent<cupti_has_channel_id>` (lines 737-768). -/
def AddKernelActivityEvent (cupti_has_channel_id : Bool)
    (collector : CuptiTraceCollector) (kernel : KernelRecord) :
    CuptiTraceCollector :=
  let info := collector.LookUpAnnotation kernel.deviceId kernel.correlationId
  let event : CuptiTracerEvent :=
    { type := .Kernel
      source := .Activity
      name := kernel.name
      start_time_ns := kernel.start
      end_time_ns := kernel.«end»
      device_id := kernel.deviceId
      context_id := kernel.contextId
      stream_id := kernel.streamId
      correlation_id := kernel.correlationId
      annot := info.annot
      nvtx := info.nvtx
      info := .kernel
        { registers_per_thread := kernel.registersPerThread
          static_shared_memory_usage := kernel.staticSharedMemory
          dynamic_shared_memory_usage := kernel.dynamicSharedMemory
          block_x := kernel.blockX
          block_y := kernel.blockY
          block_z := kernel.blockZ
          grid_x := kernel.gridX
          grid_y := kernel.gridY
          grid_z := kernel.gridZ
          channel_id := if cupti_has_channel_id then kernel.channelID else 0
          channel_type := if cupti_has_channel_id then kernel.channelType else 0 } }
  collector.AddEvent event

/-- `AddMemcpyActivityEvent` (lines 770-817). -/
def AddMemcpyActivityEvent (collector : CuptiTraceCollector)
    (memcpy : MemcpyRecord) : CuptiTraceCollector :=
  let tn : CuptiTracerEventType × String :=
    match memcpy.copyKind with
    | .htod => (.MemcpyH2D, "MemcpyH2D")
    | .dtoh => (.MemcpyD2H, "MemcpyD2H")
    | .dtod => (.MemcpyD2D, "MemcpyD2D")
    | .ptop => (.MemcpyP2P, "MemcpyP2P")
    | _ => (.MemcpyOther, "MemcpyOther")
  let info := collector.LookUpAnnotation memcpy.deviceId memcpy.correlationId
  let event : CuptiTracerEvent :=
    { type := tn.1
      name := tn.2
      source := .Activity
      start_time_ns := memcpy.start
      end_time_ns := memcpy.«end»
      device_id := memcpy.deviceId
      context_id := memcpy.contextId
      stream_id := memcpy.streamId
      correlation_id := memcpy.correlationId
      annot := info.annot
      info := .memcpy
        { copy_kind := memcpy.copyKind.code
          num_bytes := memcpy.bytes
          destination := memcpy.deviceId
          async := memcpy.asyncFlag
          src_mem_kind := memcpy.srcKind
          dst_mem_kind := memcpy.dstKind
          channel_id := memcpy.channelID
          channel_type := memcpy.channelType } }
  collector.AddEvent event

/-- `AddMemcpyP2PActivityEvent` (lines 820-846). -/
def AddMemcpyP2PActivityEvent (collector : CuptiTraceCollector)
    (memcpy : MemcpyP2PRecord) : CuptiTraceCollector :=
  let info := collector.LookUpAnnotation memcpy.srcDeviceId memcpy.correlationId
  let event : CuptiTracerEvent :=
    { type := .MemcpyP2P
      name := "MemcpyP2P"
      source := .Activity
      start_time_ns := memcpy.start
      end_time_ns := memcpy.«end»
      device_id := memcpy.srcDeviceId
      context_id := memcpy.contextId
      stream_id := memcpy.streamId
      correlation_id := memcpy.correlationId
      annot := info.annot
      info := .memcpy
        { copy_kind := MemcpyKindCode.ptop.code
          num_bytes := memcpy.bytes
          destination := memcpy.dstDeviceId
          async := memcpy.asyncFlag
          src_mem_kind := memcpy.srcKind
          dst_mem_kind := memcpy.dstKind
          channel_id := memcpy.channelID
          channel_type := memcpy.channelType } }
  collector.AddEvent event

/-- `AddCuptiOverheadActivityEvent` (lines 848-881).  For an unknown or
unexpected object kind the function returns without adding an event. -/
def AddCuptiOverheadActivityEvent (collector : CuptiTraceCollector)
    (overhead : OverheadRecord) : CuptiTraceCollector :=
  let base : CuptiTracerEvent :=
    { type := .Overhead
      name := getActivityOverheadKindString overhead.overheadKind
      source := .Activity
      start_time_ns := overhead.start
      end_time_ns := overhead.«end»
      device_id := 0 }
  match overhead.objectKind with
  | .unknown => collector
  | .thread tid => collector.AddEvent { base with thread_id := tid }
  | .process tid => collector.AddEvent { base with thread_id := tid }
  | .stream did sid => collector.AddEvent { base with stream_id := sid, device_id := did }
  | .device did => collector.AddEvent { base with device_id := did }
  | .context did => collector.AddEvent { base with device_id := did }
  | .unexpected _ => collector

/-- `AddUnifiedMemoryActivityEvent` (lines 883-927). -/
def AddUnifiedMemoryActivityEvent (collector : CuptiTraceCollector)
    (record : UnifiedMemoryRecord) : CuptiTraceCollector :=
  let kPseudoStreamId : Nat := 0x10000000
  let end_time_ns :=
    if record.counterKind = .cpuPageFaultCount ∨ record.counterKind = .thrashing ∨
        record.counterKind = .remoteMap ∨ record.«end» ≤ record.start then
      record.start + 1
    else record.«end»
  let num_bytes :=
    if record.counterKind = .bytesTransferHtoD ∨
        record.counterKind = .bytesTransferDtoH ∨
        record.counterKind = .bytesTransferDtoD then
      record.value
    else 0
  let event : CuptiTracerEvent :=
    { type := .UnifiedMemory
      name := getActivityUnifiedMemoryKindString record.counterKind
      source := .Activity
      start_time_ns := record.start
      end_time_ns := end_time_ns
      device_id := record.srcId
      stream_id := kPseudoStreamId + record.counterKind.code
      info := .memcpy
        { copy_kind := MemcpyKindCode.unknown.code
          num_bytes := num_bytes
          destination := record.dstId
          async := false } }
  collector.AddEvent event

/-- `AddMemoryActivityEvent` (lines 929-948). -/
def AddMemoryActivityEvent (collector : CuptiTraceCollector)
    (memory : MemoryRecord) : CuptiTraceCollector :=
  let event : CuptiTracerEvent :=
    { name := "Memory " ++ GetMemoryKindName memory.memoryKind
      type := .MemoryResidency
      source := .Activity
      start_time_ns := memory.start
      end_time_ns := max memory.«end» (memory.start + 1)
      device_id := memory.deviceId
      context_id := memory.contextId
      stream_id := 0
      info := .memoryResidency
        { num_bytes := memory.bytes
          mem_kind := memory.memoryKind
          address := memory.address } }
  collector.AddEvent event

/-- `AddMemsetActivityEvent` (lines 950-973). -/
def AddMemsetActivityEvent (collector : CuptiTraceCollector)
    (memset : MemsetRecord) : CuptiTraceCollector :=
  let event : CuptiTracerEvent :=
    { type := .Memset
      source := .Activity
      name := "Memset " ++ toString memset.memoryKind
      start_time_ns := memset.start
      end_time_ns := max memset.«end» (memset.start + 1)
      device_id := memset.deviceId
      correlation_id := memset.correlationId
      context_id := memset.contextId
      stream_id := memset.streamId
      info := .memset
        { num_bytes := memset.bytes
          mem_kind := memset.memoryKind
          async := memset.asyncFlag
          channel_id := memset.channelID
          channel_type := memset.channelType } }
  collector.AddEvent event

/-- `AddSynchronizationActivityEvent` (lines 975-1003). -/
def AddSynchronizationActivityEvent (collector : CuptiTraceCollector)
    (sync : SynchronizationRecord) : CuptiTraceCollector :=
  let name :=
    match sync.type with
    | .eventSynchronize => "cuEventSynchronize"
    | .streamWaitEvent => "cuStreamWaitEvent"
    | .streamSynchronize => "cuStreamSynchronize"
    | .contextSynchronize => "cuCtxSynchronize"
    | .otherKind _ => "unknown synchronization event"
  let event : CuptiTracerEvent :=
    { type := .Generic
      source := .Activity
      name := name
      start_time_ns := sync.start
      end_time_ns := max sync.«end» (sync.start + 1)
      correlation_id := sync.correlationId
      context_id := sync.contextId }
  collector.AddEvent event

/-!
## ConvertActivityBuffer (`cupti_tracer.cc` lines 1778-1842)

An activity buffer's contents are modelled as the sequence of results
`ActivityGetNextRecord` produces for it: a list of records (each call
returning `CUPTI_SUCCESS`), followed by the terminal status of the first
non-success call (the loop never queries again after a non-success).
-/

/-- The terminal status of record iteration over one activity buffer. -/
inductive CuptiTerminalStatus where
  | maxLimitReached
  | otherError (code : Nat)
  deriving DecidableEq, Repr

/-- Contents of one activity buffer, plus its valid size in bytes as
passed to `ProcessActivityBuffer`. -/
structure ActivityBufferContents where
  records : List ActivityRecord
  terminal : CuptiTerminalStatus
  size : Nat
  deriving Repr

/-- One iteration of the `ConvertActivityBuffer` switch: dispatch the
record to its per-kind handler; unsupported kinds are skipped. -/
def convertOneRecord (collector : CuptiTraceCollector) (record : ActivityRecord) :
    CuptiTraceCollector :=
  match record with
  | .kernel k => AddKernelActivityEvent tfCuptiHasChannelId collector k
  | .cdpKernel k => AddKernelActivityEvent false collector k
  | .memcpy m => AddMemcpyActivityEvent collector m
  | .memcpy2 m => AddMemcpyP2PActivityEvent collector m
  | .overhead o => AddCuptiOverheadActivityEvent collector o
  | .unifiedMemoryCounter u => AddUnifiedMemoryActivityEvent collector u
  | .memory m => AddMemoryActivityEvent collector m
  | .memset m => AddMemsetActivityEvent collector m
  | .synchronization s => AddSynchronizationActivityEvent collector s
  | .unsupportedKind _ => collector

/-- `CuptiTracer::ConvertActivityBuffer`: process every record, then map
the terminal status (`CUPTI_ERROR_MAX_LIMIT_REACHED` is the normal end
of buffer; anything else is an Internal error). -/
def ConvertActivityBuffer (collector : CuptiTraceCollector)
    (buf : ActivityBufferContents) :
    CuptiTraceCollector × Except TfModel.StatusErr Unit :=
  let collector := buf.records.foldl convertOneRecord collector
  match buf.terminal with
  | .maxLimitReached => (collector, .ok ())
  | .otherError _ =>
    (collector, .error ⟨.internal, "Parse cupti activity buffer error."⟩)

/-- Whether a record's `CUpti_ActivityKind` has a case in the
`ConvertActivityBuffer` switch. -/
def ActivityRecord.isSupportedKind : ActivityRecord → Bool
  | .unsupportedKind _ => false
  | _ => true

/-- Whether the record is an overhead record whose object kind makes
`AddCuptiOverheadActivityEvent` return without adding an event. -/
def ActivityRecord.overheadDropped : ActivityRecord → Bool
  | .overhead o =>
    match o.objectKind with
    | .unknown => true
    | .unexpected _ => true
    | _ => false
  | _ => false

/-- How many events the `ConvertActivityBuffer` switch emits for one
record. -/
def ActivityRecord.eventCount (r : ActivityRecord) : Nat :=
  if r.isSupportedKind && !r.overheadDropped then 1 else 0

/-!
## Gathering callback annotations and events
(`cupti_tracer.cc` lines 1918-1956, 1987-2000)
-/

/-- All events recorded in one per-thread buffer, in block order
(the iteration order of the two nested loops in the source). -/
def bufferEvents (b : CallbackAnnotationsAndEvents) : List EventWithAnnotation :=
  b.event_annotation_buffer.GetBlocks.flatten

/-- The inner loop body of `GatherAllCallbackAnnotationsAndEvents`:
events whose annotation or nvtx range is non-empty are emplaced into the
merged map. -/
def gatherStep (m : AnnotationMap) (e : EventWithAnnotation) : AnnotationMap :=
  if !e.annot.isEmpty || !e.nvtx.isEmpty then
    m.emplace e.correlation_id { annot := e.annot, nvtx := e.nvtx }
  else m

/-- The merged annotation map built by
`GatherAllCallbackAnnotationsAndEvents` from the collected per-thread
buffers (starting from a cleared map). -/
def mergedAnnotationMapOf (collected : List CallbackAnnotationsAndEvents) :
    AnnotationMap :=
  collected.foldl (fun m b => (bufferEvents b).foldl gatherStep m) []

/-- The total dropped-event count summed by the same loop. -/
def droppedCallbackCountOf (collected : List CallbackAnnotationsAndEvents) : Nat :=
  collected.foldl (fun n b => n + b.num_dropped_events) 0

/-- `CuptiTracer::FinalizeApiCallbackBuffers`: forward every gathered
callback event to the collector. -/
def FinalizeApiCallbackBuffers (collector : CuptiTraceCollector)
    (collected : List CallbackAnnotationsAndEvents) : CuptiTraceCollector :=
  collected.foldl
    (fun c b => (bufferEvents b).foldl (fun c ew => c.AddEvent ew.event) c)
    collector

/-- The events forwarded by `FinalizeApiCallbackBuffers`, in iteration
order. -/
def collectedEventsOf (collected : List CallbackAnnotationsAndEvents) :
    List CuptiTracerEvent :=
  (collected.map (fun b => (bufferEvents b).map EventWithAnnotation.event)).flatten

/-- `CuptiTracer::FinalizeActivityBuffers`: pop and convert every cached
activity buffer until none is left (status of each conversion ignored). -/
def FinalizeActivityBuffers (collector : CuptiTraceCollector)
    (activity_buffers : List ActivityBufferContents) : CuptiTraceCollector :=
  activity_buffers.foldl (fun c buf => (ConvertActivityBuffer c buf).1) collector

/-!
## ProcessActivityBuffer (`cupti_tracer.cc` lines 1851-1894)
-/

/-- How `ProcessActivityBuffer` disposed of the buffer it was handed:
returned to the buffer pool by the cleanup, or cached in
`activity_buffers_` for later processing. -/
inductive BufferDisposition where
  | reclaimed
  | cached
  deriving DecidableEq, Repr

/-- The tracer state read and written by `ProcessActivityBuffer`. -/
structure ActivityProcessState where
  activity_tracing_enabled : Bool
  interface_disabled : Bool
  cupti_dropped_activity_event_count : Nat
  estimated_num_activity_events : Nat
  estimated_num_dropped_activity_events : Nat
  max_activity_api_events : Nat
  activity_buffers : List ActivityBufferContents
  deriving Repr

/-- `kMaxCuptiActivityEventSize = 64`. -/
def kMaxCuptiActivityEventSize : Nat := 64

/-- `CuptiTracer::ProcessActivityBuffer`.  `droppedRecords` models the
count returned by `ActivityGetNumDroppedRecords` (`none` when that CUPTI
call fails).  Returns the status, the new state, and the disposition of
the buffer. -/
def ProcessActivityBuffer (st : ActivityProcessState) (buf : ActivityBufferContents)
    (droppedRecords : Option Nat) :
    Except TfModel.StatusErr Unit × ActivityProcessState × BufferDisposition :=
  if buf.size = 0 then (.ok (), st, .reclaimed)
  else if st.activity_tracing_enabled = false then (.ok (), st, .reclaimed)
  else if st.interface_disabled then
    (.error ⟨.internal, "Disabled."⟩, st, .reclaimed)
  else
    let st :=
      match droppedRecords with
      | some dropped =>
        { st with cupti_dropped_activity_event_count :=
            st.cupti_dropped_activity_event_count + dropped }
      | none => st
    let estimated_event_count :=
      (buf.size + kMaxCuptiActivityEventSize - 1) / kMaxCuptiActivityEventSize
    if st.max_activity_api_events ≤ st.estimated_num_activity_events then
      (.ok (),
       { st with estimated_num_dropped_activity_events :=
           st.estimated_num_dropped_activity_events + estimated_event_count },
       .reclaimed)
    else
      (.ok (),
       { st with
           estimated_num_activity_events :=
             st.estimated_num_activity_events + estimated_event_count
           activity_buffers := st.activity_buffers ++ [buf] },
       .cached)

/-!
## RequestActivityBuffer (`cupti_tracer.cc` lines 1755-1776,
`cupti_tracer.h` line 172)
-/

/-- `kBufferSizeInBytes = 32 * 1024`. -/
def kBufferSizeInBytes : Nat := 32 * 1024

/-- `CuptiTracer::RequestActivityBuffer`.  `poolBuffer` is what
`buffer_pool_.GetOrCreateBuffer()` returned (`none` models a failed
allocation; a buffer is identified by a number standing for its
address).  Returns the `*buffer` / `*size` out-parameters. -/
def RequestActivityBuffer (poolBuffer : Option Nat) : Option Nat × Nat :=
  match poolBuffer with
  | none => (none, 0)
  | some b => (some b, kBufferSizeInBytes)

/-!
## The Disable() finalize/flush protocol (`cupti_tracer.cc` lines
1517-1535)

`Disable` is modelled as a function on the tracer state that also
returns the list of phases it went through, in order.  The collector's
own log (`CuptiTraceCollector.log`) records the order of the calls made
to the collector.
-/

/-- The options the tracer holds while enabled (`CuptiTracerOptions`
fields read on the disable path). -/
structure TracerOptions where
  cupti_finalize : Bool := false
  sync_devices_before_stop : Bool := false
  activities_selected : List Nat := []
  deriving Repr

/-- The phases of `CuptiTracer::Disable`, in source order. -/
inductive DisablePhase where
  | disableApiTracing
  | disableActivityTracing
  | cleanUp
  | finalizePhase
  | syncAndFlush
  | gatherAllCallbackAnnotationsAndEvents
  | finalizeApiCallbackBuffers
  | finalizeActivityBuffers
  | collectorFlush
  deriving DecidableEq, Repr

/-- The tracer state touched by the disable path. -/
structure TracerState where
  api_tracing_enabled : Bool
  activity_tracing_enabled : Bool
  collector : Option CuptiTraceCollector
  option_ : Option TracerOptions
  perThread : List CallbackAnnotationsAndEvents
  collected : List CallbackAnnotationsAndEvents
  merged : AnnotationMap
  dropped_callback_event_count : Nat
  activity_buffers : List ActivityBufferContents

/-- `GatherAllCallbackAnnotationsAndEvents` as a state transition: grab
all per-thread buffers (the `CollectAll` move leaves the active ones
empty), rebuild the merged annotation map, and hand it to the
collector. -/
def GatherAllCallbackAnnotationsAndEvents (st : TracerState)
    (c : CuptiTraceCollector) : TracerState × CuptiTraceCollector :=
  let collected := st.perThread
  let merged := mergedAnnotationMapOf collected
  let st := { st with
    perThread := st.perThread.map CallbackAnnotationsAndEvents.clear
    collected := collected
    merged := []
    dropped_callback_event_count := droppedCallbackCountOf collected }
  (st, c.SetAnnotationMap merged)

/-- `CuptiTracer::Disable`.  `none` models the undefined behavior of
calling it with no collector installed (`collector_ == nullptr`); with a
collector the result is the new tracer state, the state the collector
object (owned by the caller) is left in, and the phases in order. -/
def Disable (st : TracerState) :
    Option (TracerState × CuptiTraceCollector × List DisablePhase) :=
  match st.collector with
  | none => none
  | some c =>
    let st := { st with api_tracing_enabled := false }
    let st := { st with
      activity_tracing_enabled := false
      option_ := st.option_.map fun o => { o with activities_selected := [] } }
    let gathered := GatherAllCallbackAnnotationsAndEvents st c
    let st := gathered.1
    let c := gathered.2
    let c := FinalizeApiCallbackBuffers c st.collected
    let c := FinalizeActivityBuffers c st.activity_buffers
    let st := { st with activity_buffers := [] }
    let c := c.Flush
    let st := { st with collector := none, option_ := none }
    some (st, c,
      [DisablePhase.disableApiTracing, DisablePhase.disableActivityTracing,
       DisablePhase.cleanUp, DisablePhase.finalizePhase, DisablePhase.syncAndFlush,
       DisablePhase.gatherAllCallbackAnnotationsAndEvents,
       DisablePhase.finalizeApiCallbackBuffers,
       DisablePhase.finalizeActivityBuffers, DisablePhase.collectorFlush])

end CuptiModel

namespace IndexFlatMapModel

/-!
## IndexFlatMap dataset operator
(`index_flat_map_dataset_op.cc` lines 67-84, 278-311)

Tensors handed to `GetValue` are accessed through `Tensor::scalar<T>()`,
which aborts the process on a non-scalar tensor; the embedding therefore
models the scalar tensors the functions are defined on: a dtype together
with the integer the tensor holds.
-/

/-- The `DataType` values distinguished by `GetValue` (plus
representatives of the rejected dtypes). -/
inductive DataType where
  | DT_UINT64
  | DT_UINT32
  | DT_INT64
  | DT_INT32
  | DT_FLOAT
  | DT_DOUBLE
  | DT_STRING
  | otherType (code : Nat)
  deriving DecidableEq, Repr

/-- A scalar tensor: its dtype and the integer it holds. -/
structure Tensor where
  dtype : DataType
  value : Int
  deriving DecidableEq, Repr

/-- The C++ integral conversion of a (64-bit-or-narrower) value to
`size_t`: reduction modulo 2^64 of the two's-complement value. -/
def intToSizeT (v : Int) : Nat := (v % (2 : Int) ^ 64).toNat

/-- Whether `GetValue` accepts the dtype. -/
def isIndexDtype : DataType → Bool
  | .DT_UINT64 => true
  | .DT_UINT32 => true
  | .DT_INT64 => true
  | .DT_INT32 => true
  | _ => false

/-- The message of the InvalidArgumentError raised by `GetValue` (the
C++ message also appends the tensor's debug string). -/
def getValueErrMsg : String :=
  "The index_map_fn for index_flat_map is expected to return two " ++
  "int32/int64 values representing the element index and an offset " ++
  "within the element."

/-- The message of the InvalidArgumentError raised by
`GetUnflattenedIndex` on a wrong tensor count. -/
def wrongArityErrMsg : String :=
  "The index_map_fn for index_flat_map is expected to return two " ++
  "int values representing the element index and an offset within " ++
  "the element."

/-- `GetValue` (lines 67-84): read the scalar as `size_t` for the four
integer dtypes, otherwise an InvalidArgumentError. -/
def GetValue (tensor : Tensor) : Except TfModel.StatusErr Nat :=
  match tensor.dtype with
  | .DT_UINT64 => .ok (intToSizeT tensor.value)
  | .DT_UINT32 => .ok (intToSizeT tensor.value)
  | .DT_INT64 => .ok (intToSizeT tensor.value)
  | .DT_INT32 => .ok (intToSizeT tensor.value)
  | _ => .error ⟨.invalidArgument, getValueErrMsg⟩

/-- `GetUnflattenedIndex` (lines 278-297).  `index_map_fn` models one run
of the instantiated `index_map_func_` (its status propagates, as with
`TF_RETURN_IF_ERROR`); checking `size() != 2` and then reading elements
0 and 1 is written as a match on a two-element list. -/
def GetUnflattenedIndex (index_map_fn : Nat → Except TfModel.StatusErr (List Tensor))
    (flattened_index : Nat) : Except TfModel.StatusErr (Nat × Nat) :=
  match index_map_fn flattened_index with
  | .error e => .error e
  | .ok unflattened_index =>
    match unflattened_index with
    | [t0, t1] =>
      (match GetValue t0 with
       | .error e => .error e
       | .ok element_index =>
         match GetValue t1 with
         | .error e => .error e
         | .ok offset => .ok (element_index, offset))
    | _ => .error ⟨.invalidArgument, wrongArityErrMsg⟩

/-- `SaveInternal` (lines 301-305): unconditionally Unimplemented; the
iterator state (of any type) is returned untouched. -/
def SaveInternal {σ : Type} (state : σ) : Except TfModel.StatusErr Unit × σ :=
  (.error ⟨.unimplemented,
    "TODO(b/325112575): Support save/load for index_flat_map."⟩, state)

/-- `RestoreInternal` (lines 307-311): unconditionally Unimplemented; the
iterator state is returned untouched. -/
def RestoreInternal {σ : Type} (state : σ) : Except TfModel.StatusErr Unit × σ :=
  (.error ⟨.unimplemented,
    "TODO(b/325112575): Support save/load for index_flat_map."⟩, state)

end IndexFlatMapModel

namespace MhloExportModel

/-!
## MLIR-to-HLO export dispatch (`mlir_hlo_to_hlo.cc`)

The dispatcher `ExportXlaOperator` is produced at build time into
`operator_writers.inc`, which is not part of this excerpt.  Modelled
from the spec: a switch on the operation kind, where every supported
kind has a dedicated per-op export entry that computes the op's HLO from
the op's attributes and the already-lowered operand values looked up in
the value map, and every other kind fails.  The hand-written overloads
of `ExportXlaOp` in `mlir_hlo_to_hlo.cc` supply entries of this table;
the ones that unconditionally `return failure()` (lines 919-957 and
996-999) are embedded below, as is the `CopyOp` overload (lines
1001-1016), which additionally consults how the op's result is used.
-/

/-- An MLIR value id. -/
abbrev MlirValue := Nat

/-- Kinds of XLA builder nodes appearing in the embedded overloads. -/
inductive HloKind where
  | copy
  | collectiveBroadcast
  | addDependency
  | xorOp
  deriving DecidableEq, Repr

/-- The XLA value produced for an MLIR value: a function parameter or a
builder node with its attributes and argument values. -/
inductive XlaOp where
  | param (id : Nat)
  | node (kind : HloKind) (attrs : List String) (args : List XlaOp)
  deriving Repr

/-- `ValueLoweringMap`: lowered XLA values of the MLIR values. -/
abbrev ValueMap := List (MlirValue × XlaOp)

/-- An MHLO operation as the dispatcher sees it: its kind, attributes,
operand and result values, and whether its (single) result type has an
`i1` element type (tested by `ExportXlaOperatorWrapped`). -/
structure MhloOperation where
  kind : String
  attrs : List String
  operands : List MlirValue
  results : List MlirValue
  result_is_i1 : Bool
  deriving Repr

/-- Result of exporting one op: the value-map updates, or failure. -/
inductive ExportResult where
  | success (updates : List (MlirValue × XlaOp))
  | failure
  deriving Repr

/-- A per-op export entry: from the op's attributes and resolved operand
values to the result values, or `none` for failure. -/
abbrev PerOpEntry := List String → List XlaOp → Option (List XlaOp)

/-- The dispatch table of per-op export entries, keyed by op kind. -/
abbrev ExportTable := List (String × PerOpEntry)

/-- `GetXlaOp` for each operand in turn; fails if any operand has not
been lowered. -/
def resolveOperands (vm : ValueMap) : List MlirValue → Option (List XlaOp)
  | [] => some []
  | v :: vs =>
    match List.lookup v vm with
    | none => none
    | some x =>
      match resolveOperands vm vs with
      | none => none
      | some xs => some (x :: xs)

/-- Modelled from the spec: the generated `ExportXlaOperator` — dispatch
on the op kind; a kind with no entry fails; otherwise resolve the
operands, run the dedicated entry on the attributes and operand values,
and bind the results. -/
def ExportXlaOperator (table : ExportTable) (op : MhloOperation) (vm : ValueMap) :
    ExportResult :=
  match List.lookup op.kind table with
  | none => .failure
  | some f =>
    match resolveOperands vm op.operands with
    | none => .failure
    | some args =>
      match f op.attrs args with
      | none => .failure
      | some res => .success (op.results.zip res)

/-- `ExportXlaOperatorWrapped` (lines 2980-3002): `AddOp` on an `i1`
tensor is exported as an `xor`; everything else goes to the generated
dispatcher. -/
def ExportXlaOperatorWrapped (table : ExportTable) (op : MhloOperation)
    (vm : ValueMap) : ExportResult :=
  if op.kind = "mhlo.add" ∧ op.result_is_i1 = true then
    match op.operands with
    | [lhs, rhs] =>
      (match List.lookup lhs vm, List.lookup rhs vm with
       | some a, some b => .success (op.results.zip [XlaOp.node .xorOp [] [a, b]])
       | _, _ => .failure)
    | _ => .failure
  else ExportXlaOperator table op vm

/-- The entry shared by the hand-written overloads that unconditionally
`return failure()`. -/
def unimplementedExportEntry : PerOpEntry := fun _ _ => none

/-- The op kinds whose hand-written `ExportXlaOp` overloads
unconditionally fail (lines 919-957, 996-999). -/
def handWrittenFailureOps : List String :=
  ["mhlo.composite", "mhlo.compute_reshape_shape", "mhlo.cstr_reshapable",
   "mhlo.dynamic_broadcast_in_dim", "mhlo.dynamic_conv", "mhlo.dynamic_gather",
   "mhlo.dynamic_iota", "mhlo.dynamic_pad", "mhlo.real_dynamic_slice"]

/-- `ExportXlaOp(CollectiveBroadcastOp)` (lines 907-917) as a table
entry: one operand, and the replica groups / channel handle attributes
are carried into the node. -/
def collectiveBroadcastEntry : PerOpEntry := fun attrs args =>
  match args with
  | [operand] => some [XlaOp.node .collectiveBroadcast attrs [operand]]
  | _ => none

/-- A fragment of the dispatch table populated from the hand-written
overloads embedded here. -/
def exportTableFragment : ExportTable :=
  ("mhlo.collective_broadcast", collectiveBroadcastEntry) ::
    handWrittenFailureOps.map (fun k => (k, unimplementedExportEntry))

/-- The data of a `mhlo.copy` op read by its overload: the optional
`cross_program_prefetch_index` attribute, the operand and the result. -/
structure CopyOpData where
  cross_program_prefetch_index : Option Nat
  operand : MlirValue
  result : MlirValue
  deriving DecidableEq, Repr

/-- `ExportXlaOp(CopyOp)` (lines 1001-1016).  `simply_returned` is the
value of `SimplyReturnedOp(op)` — a predicate on the op's operands and
users in the enclosing function, not on its attributes or operand
values. -/
def ExportXlaOpCopy (op : CopyOpData) (vm : ValueMap) (simply_returned : Bool) :
    ExportResult :=
  if op.cross_program_prefetch_index.isSome && !simply_returned then .failure
  else
    match List.lookup op.operand vm with
    | none => .failure
    | some a => .success [(op.result, XlaOp.node .copy [] [a])]

end MhloExportModel

/-!
# Theorems
-/

namespace IndexFlatMapModel

/-- An accepted dtype makes `GetValue` read the scalar as `size_t`. -/
theorem getValue_ok (t : Tensor) (h : isIndexDtype t.dtype = true) :
    GetValue t = .ok (intToSizeT t.value) := by
  cases hd : t.dtype <;> simp [isIndexDtype, hd] at h ⊢ <;> simp [GetValue, hd]

/-- A rejected dtype makes `GetValue` return an InvalidArgumentError. -/
theorem getValue_err (t : Tensor) (h : isIndexDtype t.dtype = false) :
    GetValue t = .error ⟨.invalidArgument, getValueErrMsg⟩ := by
  cases hd : t.dtype <;> simp [isIndexDtype, hd] at h ⊢ <;> simp [GetValue, hd]

end IndexFlatMapModel

/-- C10: the IndexFlatMap iterator does not support checkpointing:
`SaveInternal` and `RestoreInternal` return an UnimplementedError for
every input, unconditionally, leaving the iterator state unchanged. -/
theorem C10_checkpointing_unimplemented :
    ∀ (σ : Type) (state : σ),
      IndexFlatMapModel.SaveInternal state =
        (.error ⟨.unimplemented,
          "TODO(b/325112575): Support save/load for index_flat_map."⟩, state) ∧
      IndexFlatMapModel.RestoreInternal state =
        (.error ⟨.unimplemented,
          "TODO(b/325112575): Support save/load for index_flat_map."⟩, state) :=
  fun _ _ => ⟨rfl, rfl⟩

/-- C6: `RequestActivityBuffer` has exactly two outcomes — a buffer from
the pool with size `kBufferSizeInBytes = 32 * 1024`, or, when the pool
cannot allocate, a null buffer with size 0 — never a non-null buffer
with any other size. -/
theorem C6_request_activity_buffer :
    ∀ poolBuffer : Option Nat,
      (poolBuffer = none ∧ CuptiModel.RequestActivityBuffer poolBuffer = (none, 0)) ∨
      (∃ b, poolBuffer = some b ∧
        CuptiModel.RequestActivityBuffer poolBuffer =
          (some b, CuptiModel.kBufferSizeInBytes) ∧
        CuptiModel.kBufferSizeInBytes = 32 * 1024) := by
  intro poolBuffer
  cases poolBuffer with
  | none => exact Or.inl ⟨rfl, rfl⟩
  | some b => exact Or.inr ⟨b, rfl, rfl, rfl⟩

/-- C8: `GetUnflattenedIndex` returns an InvalidArgumentError whenever
the run of `index_map_fn` returns a number of tensors different from
two or a tensor of a dtype other than DT_UINT64 / DT_UINT32 / DT_INT64 /
DT_INT32; when it returns exactly two scalar tensors of those dtypes,
the result is the pair (element index, offset) read from the two
tensors in order. -/
theorem C8_get_unflattened_index
    (index_map_fn : Nat → Except TfModel.StatusErr (List IndexFlatMapModel.Tensor))
    (idx : Nat) (ts : List IndexFlatMapModel.Tensor)
    (hrun : index_map_fn idx = .ok ts) :
    ((ts.length ≠ 2 ∨ ∃ t ∈ ts, IndexFlatMapModel.isIndexDtype t.dtype = false) →
        ∃ msg, IndexFlatMapModel.GetUnflattenedIndex index_map_fn idx =
          .error ⟨.invalidArgument, msg⟩) ∧
    (∀ t0 t1, ts = [t0, t1] →
        IndexFlatMapModel.isIndexDtype t0.dtype = true →
        IndexFlatMapModel.isIndexDtype t1.dtype = true →
        IndexFlatMapModel.GetUnflattenedIndex index_map_fn idx =
          .ok (IndexFlatMapModel.intToSizeT t0.value,
               IndexFlatMapModel.intToSizeT t1.value)) := by
  constructor
  · intro hbad
    match ts, hrun with
    | [], hrun =>
      exact ⟨IndexFlatMapModel.wrongArityErrMsg, by
        simp [IndexFlatMapModel.GetUnflattenedIndex, hrun]⟩
    | [t], hrun =>
      exact ⟨IndexFlatMapModel.wrongArityErrMsg, by
        simp [IndexFlatMapModel.GetUnflattenedIndex, hrun]⟩
    | t0 :: t1 :: t2 :: rest, hrun =>
      exact ⟨IndexFlatMapModel.wrongArityErrMsg, by
        simp [IndexFlatMapModel.GetUnflattenedIndex, hrun]⟩
    | [t0, t1], hrun =>
      rcases hbad with hlen | ⟨t, hmem, hdt⟩
      · simp at hlen
      · rcases List.mem_pair.mp hmem with h0 | h1
        · subst h0
          exact ⟨IndexFlatMapModel.getValueErrMsg, by
            simp [IndexFlatMapModel.GetUnflattenedIndex, hrun,
              IndexFlatMapModel.getValue_err t hdt]⟩
        · subst h1
          rcases hdt0 : IndexFlatMapModel.isIndexDtype t0.dtype with _ | _
          · exact ⟨IndexFlatMapModel.getValueErrMsg, by
              simp [IndexFlatMapModel.GetUnflattenedIndex, hrun,
                IndexFlatMapModel.getValue_err t0 hdt0]⟩
          · exact ⟨IndexFlatMapModel.getValueErrMsg, by
              simp [IndexFlatMapModel.GetUnflattenedIndex, hrun,
                IndexFlatMapModel.getValue_ok t0 hdt0,
                IndexFlatMapModel.getValue_err t hdt]⟩
  · intro t0 t1 hts h0 h1
    subst hts
    simp [IndexFlatMapModel.GetUnflattenedIndex, hrun,
      IndexFlatMapModel.getValue_ok t0 h0, IndexFlatMapModel.getValue_ok t1 h1]

/-- Witness for C8 at a concrete run: two scalar tensors (DT_INT64 3,
DT_UINT32 5) give the pair read from them in order. -/
theorem C8_get_unflattened_index_witness :
    IndexFlatMapModel.GetUnflattenedIndex
      (fun _ => .ok [⟨.DT_INT64, 3⟩, ⟨.DT_UINT32, 5⟩]) 0 =
      .ok (IndexFlatMapModel.intToSizeT 3, IndexFlatMapModel.intToSizeT 5) :=
  (C8_get_unflattened_index (fun _ => .ok [⟨.DT_INT64, 3⟩, ⟨.DT_UINT32, 5⟩]) 0
      [⟨.DT_INT64, 3⟩, ⟨.DT_UINT32, 5⟩] rfl).2
    ⟨.DT_INT64, 3⟩ ⟨.DT_UINT32, 5⟩ rfl rfl rfl

namespace CuptiModel

/-- `Append` increments `size_` by one. -/
theorem AppendOnlyBuffer.size_Append {T : Type} (b : AppendOnlyBuffer T) (v : T) :
    (b.Append v).size = b.size + 1 := by
  unfold AppendOnlyBuffer.Append
  split <;> rfl

/-- `Append` appends the value at the end of the concatenated blocks. -/
theorem AppendOnlyBuffer.flatten_Append {T : Type} (b : AppendOnlyBuffer T) (v : T) :
    (b.Append v).GetBlocks.flatten = b.GetBlocks.flatten ++ [v] := by
  unfold AppendOnlyBuffer.Append AppendOnlyBuffer.GetBlocks
  split <;> simp

/-- The events of a per-thread buffer after an `Emplace`. -/
theorem bufferEvents_of_emplace (st st' : CallbackAnnotationsAndEvents)
    (ev : EventWithAnnotation)
    (h : st'.event_annotation_buffer = st.event_annotation_buffer.Emplace ev) :
    bufferEvents st' = bufferEvents st ++ [ev] := by
  unfold bufferEvents
  rw [h]
  exact AppendOnlyBuffer.flatten_Append _ _

/-- `Add` under the cap: returns true having emplaced exactly one event
carrying the correlation id, and having incremented the global counter. -/
theorem Add_spec_true (g : CallbackGlobals) (st : CallbackAnnotationsAndEvents)
    (device_id correlation_id : Nat) (annot nvtx : String)
    (hroom : g.s_max_callback_api_events = 0 ∨
      g.s_callback_api_event_count < g.s_max_callback_api_events) :
    ∃ ev : EventWithAnnotation,
      ev.correlation_id = correlation_id ∧
      (CallbackAnnotationsAndEvents.Add g st device_id correlation_id annot nvtx).1
          = true ∧
      (CallbackAnnotationsAndEvents.Add g st device_id correlation_id annot
          nvtx).2.1.s_callback_api_event_count = g.s_callback_api_event_count + 1 ∧
      (CallbackAnnotationsAndEvents.Add g st device_id correlation_id annot
          nvtx).2.2.event_annotation_buffer =
        st.event_annotation_buffer.Emplace ev ∧
      (CallbackAnnotationsAndEvents.Add g st device_id correlation_id annot
          nvtx).2.2.num_dropped_events = st.num_dropped_events := by
  unfold CallbackAnnotationsAndEvents.Add
  rw [if_pos hroom]
  exact ⟨_, rfl, rfl, rfl, rfl, rfl⟩

/-- `Add` over the cap: returns false, appends nothing, bumps the
thread's dropped count, and leaves the globals untouched. -/
theorem Add_spec_false (g : CallbackGlobals) (st : CallbackAnnotationsAndEvents)
    (device_id correlation_id : Nat) (annot nvtx : String)
    (hfull : ¬(g.s_max_callback_api_events = 0 ∨
      g.s_callback_api_event_count < g.s_max_callback_api_events)) :
    (CallbackAnnotationsAndEvents.Add g st device_id correlation_id annot nvtx).1
        = false ∧
    (CallbackAnnotationsAndEvents.Add g st device_id correlation_id annot
        nvtx).2.1 = g ∧
    (CallbackAnnotationsAndEvents.Add g st device_id correlation_id annot
        nvtx).2.2.event_annotation_buffer = st.event_annotation_buffer ∧
    (CallbackAnnotationsAndEvents.Add g st device_id correlation_id annot
        nvtx).2.2.num_dropped_events = st.num_dropped_events + 1 := by
  unfold CallbackAnnotationsAndEvents.Add
  rw [if_neg hfull]
  exact ⟨rfl, rfl, rfl, rfl⟩

/-- `HandleCallback` on a fully-guarded driver-API exit callback reduces
to the `Add` call followed by the hook decision. -/
theorem handleCallback_exit_eq (env : HandleCallbackEnv) (g : CallbackGlobals)
    (thr : CallbackAnnotationsAndEvents) (cbid : Nat) (cbdata : CallbackData)
    (device_id : Nat)
    (h1 : env.api_tracing_enabled = true) (h2 : env.hook_present = true)
    (h4 : env.internalCuCall = 0) (h5 : cbdata.context_is_null = false)
    (h6 : cbdata.getDeviceIdResult = some device_id)
    (h7 : device_id < env.num_gpus)
    (h8 : cbdata.callbackSite = ApiCallbackSite.exit) :
    HandleCallback env g thr CallbackDomain.driverApi cbid cbdata =
      (let r := CallbackAnnotationsAndEvents.Add g thr device_id
        cbdata.correlationId env.annotationStackTop
        (if cbid = cbidLaunchCooperativeKernelMultiDevice then ""
         else env.currentNvtxRange)
       if r.1 then (CallbackEffect.exitHookInvoked, r.2.1, r.2.2)
       else (CallbackEffect.exitEventDropped, r.2.1, r.2.2)) := by
  have hng : ¬ env.num_gpus ≤ device_id := Nat.not_le.mpr h7
  simp [HandleCallback, h1, h2, h4, h5, h6, h8, hng]

end CuptiModel

/-- C2: for every driver-API-exit callback that `HandleCallback`
handles, `CallbackAnnotationsAndEvents::Add` appends exactly one event
to the calling thread's buffer and returns true when
`s_max_callback_api_events` is 0 or the global counter is below it
(incrementing the counter); otherwise it appends nothing, increments the
thread's `num_dropped_events` and returns false, and `HandleCallback`
then does not invoke `OnDriverApiExit` (effect `exitEventDropped`
instead of `exitHookInvoked`). -/
theorem C2_per_thread_buffering
    (env : CuptiModel.HandleCallbackEnv) (g : CuptiModel.CallbackGlobals)
    (thr : CuptiModel.CallbackAnnotationsAndEvents)
    (domain : CuptiModel.CallbackDomain) (cbid : Nat)
    (cbdata : CuptiModel.CallbackData) (device_id : Nat)
    (h1 : env.api_tracing_enabled = true) (h2 : env.hook_present = true)
    (h3 : domain = CuptiModel.CallbackDomain.driverApi)
    (h4 : env.internalCuCall = 0) (h5 : cbdata.context_is_null = false)
    (h6 : cbdata.getDeviceIdResult = some device_id)
    (h7 : device_id < env.num_gpus)
    (h8 : cbdata.callbackSite = CuptiModel.ApiCallbackSite.exit) :
    (g.s_max_callback_api_events = 0 ∨
        g.s_callback_api_event_count < g.s_max_callback_api_events →
      (CuptiModel.HandleCallback env g thr domain cbid cbdata).1 =
          CuptiModel.CallbackEffect.exitHookInvoked ∧
      (∃ ev : CuptiModel.EventWithAnnotation,
        ev.correlation_id = cbdata.correlationId ∧
        CuptiModel.bufferEvents
            (CuptiModel.HandleCallback env g thr domain cbid cbdata).2.2 =
          CuptiModel.bufferEvents thr ++ [ev]) ∧
      (CuptiModel.HandleCallback env g thr domain cbid cbdata).2.1.s_callback_api_event_count =
        g.s_callback_api_event_count + 1 ∧
      (CuptiModel.HandleCallback env g thr domain cbid cbdata).2.2.num_dropped_events =
        thr.num_dropped_events) ∧
    (¬(g.s_max_callback_api_events = 0 ∨
          g.s_callback_api_event_count < g.s_max_callback_api_events) →
      (CuptiModel.HandleCallback env g thr domain cbid cbdata).1 =
          CuptiModel.CallbackEffect.exitEventDropped ∧
      (CuptiModel.HandleCallback env g thr domain cbid cbdata).2.2.event_annotation_buffer =
        thr.event_annotation_buffer ∧
      (CuptiModel.HandleCallback env g thr domain cbid cbdata).2.2.num_dropped_events =
        thr.num_dropped_events + 1 ∧
      (CuptiModel.HandleCallback env g thr domain cbid cbdata).2.1 = g) := by
  subst h3
  have heq := CuptiModel.handleCallback_exit_eq env g thr cbid cbdata device_id
    h1 h2 h4 h5 h6 h7 h8
  constructor
  · intro hroom
    obtain ⟨ev, hcorr, hret, hcount, hbuf, hdrop⟩ :=
      CuptiModel.Add_spec_true g thr device_id cbdata.correlationId
        env.annotationStackTop
        (if cbid = CuptiModel.cbidLaunchCooperativeKernelMultiDevice then ""
         else env.currentNvtxRange) hroom
    rw [heq]
    simp only [hret, if_true]
    exact ⟨trivial, ⟨ev, hcorr, CuptiModel.bufferEvents_of_emplace thr _ ev hbuf⟩,
      hcount, hdrop⟩
  · intro hfull
    obtain ⟨hret, hg, hbuf, hdrop⟩ :=
      CuptiModel.Add_spec_false g thr device_id cbdata.correlationId
        env.annotationStackTop
        (if cbid = CuptiModel.cbidLaunchCooperativeKernelMultiDevice then ""
         else env.currentNvtxRange) hfull
    rw [heq]
    simp only [hret, Bool.false_eq_true, if_false]
    exact ⟨trivial, hbuf, hdrop, hg⟩

namespace CuptiModel

/-- The inductive invariant of an `AppendOnlyBuffer` holding the
elements `l` (in order): block size at least 1024, sizes consistent,
all completed blocks exactly full, and the last block empty only right
after a clear. -/
def BufInv {T : Type} (b : AppendOnlyBuffer T) (l : List T) : Prop :=
  1024 ≤ b.block_size ∧
  b.size = l.length ∧
  (∀ blk ∈ b.front_blocks, blk.length = b.block_size) ∧
  b.last_block.length ≤ b.block_size ∧
  b.front_blocks.flatten ++ b.last_block = l ∧
  (b.last_block = [] → b.front_blocks = [])

/-- `Clear` re-establishes the invariant for the empty element list. -/
theorem bufInv_clear {T : Type} (b : AppendOnlyBuffer T)
    (h : 1024 ≤ b.block_size) : BufInv b.Clear [] := by
  refine ⟨h, rfl, ?_, ?_, rfl, fun _ => rfl⟩
  · intro blk hblk
    simp [AppendOnlyBuffer.Clear] at hblk
  · simp [AppendOnlyBuffer.Clear]

/-- `Append` preserves the invariant, extending the element list. -/
theorem bufInv_append {T : Type} (b : AppendOnlyBuffer T) (l : List T) (v : T)
    (h : BufInv b l) : BufInv (b.Append v) (l ++ [v]) := by
  obtain ⟨hbs, hsz, hfull, hle, hfl, hemp⟩ := h
  unfold AppendOnlyBuffer.Append
  by_cases hfullnow : b.block_size ≤ b.last_block.length
  · rw [if_pos hfullnow]
    refine ⟨hbs, ?_, ?_, ?_, ?_, ?_⟩
    · simp [hsz]
    · intro blk hblk
      rcases List.mem_append.mp hblk with hin | hone
      · exact hfull blk hin
      · rcases List.mem_singleton.mp hone with rfl
        exact le_antisymm hle hfullnow
    · simp only [List.length_singleton]
      omega
    · simp [← hfl]
    · intro hcontra
      simp at hcontra
  · rw [if_neg hfullnow]
    refine ⟨hbs, ?_, hfull, ?_, ?_, ?_⟩
    · simp [hsz]
    · have := Nat.lt_of_not_le hfullnow
      simpa using this
    · simp [← hfl]
    · intro hcontra
      simp at hcontra

/-- Running any operation sequence preserves the invariant. -/
theorem bufInv_run {T : Type} :
    ∀ (ops : List (BufOp T)) (b : AppendOnlyBuffer T) (l : List T),
      BufInv b l →
      BufInv (b.run ops)
        (ops.foldl (fun acc op =>
          match op with
          | .append v => acc ++ [v]
          | .emplace v => acc ++ [v]
          | .clear => []) l) := by
  intro ops
  induction ops with
  | nil => intro b l h; exact h
  | cons op ops ih =>
    intro b l h
    cases op with
    | append v => exact ih _ _ (bufInv_append b l v h)
    | emplace v => exact ih _ _ (bufInv_append b l v h)
    | clear => exact ih _ _ (bufInv_clear b h.1)

/-- `appendedSinceClear` as a fold from an arbitrary prefix. -/
theorem appendedSinceClear_eq_foldl {T : Type} (ops : List (BufOp T)) :
    appendedSinceClear ops =
      ops.foldl (fun acc op =>
        match op with
        | .append v => acc ++ [v]
        | .emplace v => acc ++ [v]
        | .clear => []) [] := rfl

end CuptiModel

/-- C9: after any sequence of Append/Emplace/Clear operations on a
fresh `AppendOnlyBuffer`, `Size()` equals the number of elements
appended since the last `Clear`, every block except possibly the last
holds exactly `block_size_` elements (with `block_size_` at least
1024), and `LastElement()` returns the most recently appended element,
or null exactly when `Size()` is 0. -/
theorem C9_append_only_buffer_invariant (T : Type) (bs : Nat)
    (ops : List (CuptiModel.BufOp T)) :
    ((CuptiModel.AppendOnlyBuffer.new T bs).run ops).Size =
        (CuptiModel.appendedSinceClear ops).length ∧
    1024 ≤ ((CuptiModel.AppendOnlyBuffer.new T bs).run ops).block_size ∧
    (∀ blk ∈ ((CuptiModel.AppendOnlyBuffer.new T bs).run ops).GetBlocks.dropLast,
        blk.length = ((CuptiModel.AppendOnlyBuffer.new T bs).run ops).block_size) ∧
    ((CuptiModel.AppendOnlyBuffer.new T bs).run ops).LastElement =
        (CuptiModel.appendedSinceClear ops).getLast? ∧
    (((CuptiModel.AppendOnlyBuffer.new T bs).run ops).LastElement = none ↔
        ((CuptiModel.AppendOnlyBuffer.new T bs).run ops).Size = 0) := by
  have hinit : CuptiModel.BufInv (CuptiModel.AppendOnlyBuffer.new T bs) [] := by
    refine ⟨le_max_left 1024 bs, rfl, ?_, ?_, rfl, fun _ => rfl⟩
    · intro blk hblk
      simp [CuptiModel.AppendOnlyBuffer.new, CuptiModel.AppendOnlyBuffer.Clear]
        at hblk
    · simp [CuptiModel.AppendOnlyBuffer.new, CuptiModel.AppendOnlyBuffer.Clear]
  have h := CuptiModel.bufInv_run ops _ [] hinit
  rw [← CuptiModel.appendedSinceClear_eq_foldl] at h
  obtain ⟨hbs, hsz, hfull, hle, hfl, hemp⟩ := h
  set b := (CuptiModel.AppendOnlyBuffer.new T bs).run ops
  have hdrop : b.GetBlocks.dropLast = b.front_blocks := by
    simp [CuptiModel.AppendOnlyBuffer.GetBlocks]
  have hlast : b.LastElement = (CuptiModel.appendedSinceClear ops).getLast? := by
    unfold CuptiModel.AppendOnlyBuffer.LastElement
    by_cases hpos : b.size > 0
    · rw [if_pos hpos]
      have hne : b.last_block ≠ [] := by
        intro hnil
        have hfront := hemp hnil
        rw [hfront, hnil] at hfl
        simp at hfl
        rw [hfl] at hsz
        simp at hsz
        omega
      rw [← hfl]
      exact (List.getLast?_append_of_ne_nil _ hne).symm
    · rw [if_neg hpos]
      have hzero : b.size = 0 := Nat.eq_zero_of_not_pos hpos
      rw [hzero] at hsz
      have : CuptiModel.appendedSinceClear ops = [] :=
        List.eq_nil_of_length_eq_zero hsz.symm
      rw [this]
      rfl
  refine ⟨hsz, hbs, ?_, hlast, ?_⟩
  · intro blk hblk
    rw [hdrop] at hblk
    exact hfull blk hblk
  · rw [hlast]
    constructor
    · intro hnone
      have : CuptiModel.appendedSinceClear ops = [] :=
        List.getLast?_eq_none_iff.mp hnone
      rw [CuptiModel.AppendOnlyBuffer.Size, hsz, this]
      rfl
    · intro hzero
      rw [CuptiModel.AppendOnlyBuffer.Size] at hzero
      rw [hzero] at hsz
      have : CuptiModel.appendedSinceClear ops = [] :=
        List.eq_nil_of_length_eq_zero hsz.symm
      rw [this]
      rfl

namespace CuptiModel

/-- `List.lookup` over an appended association list. -/
theorem lookup_append (m₁ m₂ : AnnotationMap) (k : Nat) :
    List.lookup k (m₁ ++ m₂) =
      match List.lookup k m₁ with
      | some v => some v
      | none => List.lookup k m₂ := by
  induction m₁ with
  | nil => simp
  | cons p m₁ ih =>
    rcases p with ⟨k', v'⟩
    by_cases hk : k = k'
    · subst hk
      simp [List.lookup]
    · have hb : (k == k') = false := beq_eq_false_iff_ne.mpr hk
      simp only [List.cons_append, List.lookup, hb]
      exact ih

/-- `String.isEmpty` is false exactly on non-empty strings. -/
theorem isEmpty_false_iff (s : String) : s.isEmpty = false ↔ s ≠ "" := by
  rw [ne_eq, ← String.isEmpty_iff s, Bool.not_eq_true]

/-- The Bool gate of `gatherStep` as a proposition. -/
theorem gatherCond_iff (e : EventWithAnnotation) :
    (!e.annot.isEmpty || !e.nvtx.isEmpty) = true ↔
      (e.annot ≠ "" ∨ e.nvtx ≠ "") := by
  rw [Bool.or_eq_true, Bool.not_eq_true', Bool.not_eq_true',
    isEmpty_false_iff, isEmpty_false_iff]

/-- A key is present after `gatherStep` iff it was present before or
the event carries that correlation id with a non-empty annotation or
nvtx range. -/
theorem lookup_gatherStep_isSome (m : AnnotationMap) (e : EventWithAnnotation)
    (corr : Nat) :
    (List.lookup corr (gatherStep m e)).isSome ↔
      (List.lookup corr m).isSome ∨
        (e.correlation_id = corr ∧ (e.annot ≠ "" ∨ e.nvtx ≠ "")) := by
  unfold gatherStep
  by_cases hc : (!e.annot.isEmpty || !e.nvtx.isEmpty) = true
  · rw [if_pos hc]
    unfold AnnotationMap.emplace
    rcases hm : List.lookup e.correlation_id m with _ | v
    · dsimp only
      rw [List.append_eq, lookup_append]
      rcases hm' : List.lookup corr m with _ | v'
      · dsimp only
        by_cases hkk : corr = e.correlation_id
        · have hb : (corr == e.correlation_id) = true := beq_iff_eq.mpr hkk
          constructor
          · intro _
            exact Or.inr ⟨hkk.symm, (gatherCond_iff e).mp hc⟩
          · intro _
            simp [List.lookup, hb]
        · have hb : (corr == e.correlation_id) = false :=
            beq_eq_false_iff_ne.mpr hkk
          constructor
          · intro hfalse
            simp [List.lookup, hb] at hfalse
          · rintro (hnone | ⟨hk, _⟩)
            · simp at hnone
            · exact absurd hk.symm hkk
      · dsimp only
        simp
    · dsimp only
      rcases hm' : List.lookup corr m with _ | v'
      · simp only [hm', Option.isSome_none, Bool.false_eq_true, false_or]
        constructor
        · intro h
          exact absurd h (by simp)
        · rintro ⟨hk, _⟩
          rw [hk] at hm
          rw [hm'] at hm
          cases hm
      · simp [hm']
  · rw [if_neg hc]
    have : ¬(e.annot ≠ "" ∨ e.nvtx ≠ "") := fun h => hc ((gatherCond_iff e).mpr h)
    simp [this]

/-- Any entry after `gatherStep` either was already there or records
exactly the event's correlation id, annotation and nvtx range. -/
theorem lookup_gatherStep_some (m : AnnotationMap) (e : EventWithAnnotation)
    (corr : Nat) (info : AnnotationInfo)
    (h : List.lookup corr (gatherStep m e) = some info) :
    List.lookup corr m = some info ∨
      (e.correlation_id = corr ∧ info.annot = e.annot ∧ info.nvtx = e.nvtx ∧
        (e.annot ≠ "" ∨ e.nvtx ≠ "")) := by
  unfold gatherStep at h
  by_cases hc : (!e.annot.isEmpty || !e.nvtx.isEmpty) = true
  · rw [if_pos hc] at h
    unfold AnnotationMap.emplace at h
    rcases hm : List.lookup e.correlation_id m with _ | v
    · rw [hm] at h
      dsimp only at h
      rw [List.append_eq, lookup_append] at h
      rcases hm' : List.lookup corr m with _ | v'
      · rw [hm'] at h
        dsimp only at h
        by_cases hkk : corr = e.correlation_id
        · have hb : (corr == e.correlation_id) = true := beq_iff_eq.mpr hkk
          simp only [List.lookup, hb] at h
          injection h with h
          exact Or.inr ⟨hkk.symm, by rw [← h], by rw [← h],
            (gatherCond_iff e).mp hc⟩
        · have hb : (corr == e.correlation_id) = false :=
            beq_eq_false_iff_ne.mpr hkk
          simp only [List.lookup, hb] at h
          exact Option.noConfusion h
      · rw [hm'] at h
        dsimp only at h
        exact Or.inl h
    · rw [hm] at h
      dsimp only at h
      exact Or.inl h
  · rw [if_neg hc] at h
    exact Or.inl h

/-- Folding `gatherStep` over an event list: key presence. -/
theorem lookup_foldl_gatherStep_isSome (events : List EventWithAnnotation) :
    ∀ (m : AnnotationMap) (corr : Nat),
      (List.lookup corr (events.foldl gatherStep m)).isSome ↔
        (List.lookup corr m).isSome ∨
          ∃ e ∈ events, e.correlation_id = corr ∧
            (e.annot ≠ "" ∨ e.nvtx ≠ "") := by
  induction events with
  | nil => simp
  | cons e events ih =>
    intro m corr
    rw [List.foldl_cons, ih, lookup_gatherStep_isSome]
    constructor
    · rintro ((h | h) | ⟨e', he', h⟩)
      · exact Or.inl h
      · exact Or.inr ⟨e, List.mem_cons_self e events, h⟩
      · exact Or.inr ⟨e', List.mem_cons_of_mem e he', h⟩
    · rintro (h | ⟨e', he', h⟩)
      · exact Or.inl (Or.inl h)
      · rcases List.mem_cons.mp he' with rfl | he''
        · exact Or.inl (Or.inr h)
        · exact Or.inr ⟨e', he'', h⟩

/-- Folding `gatherStep` over an event list: entry provenance. -/
theorem lookup_foldl_gatherStep_some (events : List EventWithAnnotation) :
    ∀ (m : AnnotationMap) (corr : Nat) (info : AnnotationInfo),
      List.lookup corr (events.foldl gatherStep m) = some info →
        List.lookup corr m = some info ∨
          ∃ e ∈ events, e.correlation_id = corr ∧
            info.annot = e.annot ∧ info.nvtx = e.nvtx ∧
            (e.annot ≠ "" ∨ e.nvtx ≠ "") := by
  induction events with
  | nil => intro m corr info h; exact Or.inl h
  | cons e events ih =>
    intro m corr info h
    rw [List.foldl_cons] at h
    rcases ih _ _ _ h with h' | ⟨e', he', hprops⟩
    · rcases lookup_gatherStep_some m e corr info h' with h'' | hev
      · exact Or.inl h''
      · exact Or.inr ⟨e, List.mem_cons_self e events, hev⟩
    · exact Or.inr ⟨e', List.mem_cons_of_mem e he', hprops⟩

/-- The events of all collected buffers, in iteration order. -/
def allEvents (collected : List CallbackAnnotationsAndEvents) :
    List EventWithAnnotation :=
  (collected.map bufferEvents).flatten

/-- The merged map is the fold of `gatherStep` over all events. -/
theorem mergedAnnotationMapOf_eq (collected : List CallbackAnnotationsAndEvents) :
    mergedAnnotationMapOf collected = (allEvents collected).foldl gatherStep [] := by
  suffices h : ∀ (m : AnnotationMap),
      collected.foldl (fun m b => (bufferEvents b).foldl gatherStep m) m =
        (allEvents collected).foldl gatherStep m by
    exact h []
  induction collected with
  | nil => intro m; rfl
  | cons b cs ih =>
    intro m
    rw [List.foldl_cons]
    rw [ih ((bufferEvents b).foldl gatherStep m)]
    unfold allEvents
    rw [List.map_cons, List.flatten_cons, List.foldl_append]

/-- Membership in `allEvents` unfolded to buffer membership. -/
theorem mem_allEvents (collected : List CallbackAnnotationsAndEvents)
    (e : EventWithAnnotation) :
    e ∈ allEvents collected ↔ ∃ b ∈ collected, e ∈ bufferEvents b := by
  unfold allEvents
  rw [List.mem_flatten]
  constructor
  · rintro ⟨s, hs, he⟩
    obtain ⟨b, hb, rfl⟩ := List.mem_map.mp hs
    exact ⟨b, hb, he⟩
  · rintro ⟨b, hb, he⟩
    exact ⟨bufferEvents b, List.mem_map.mpr ⟨b, hb, rfl⟩, he⟩

end CuptiModel

/-- C1: the merged annotation map built while disabling profiling has an
entry for a correlation id exactly when some recorded per-thread
callback event with that id has a non-empty annotation or nvtx range;
every entry records such an event's annotation and nvtx range; the
gather step installs exactly this map in the collector; and every
kernel activity event emitted by `AddKernelActivityEvent` takes its
annotation and nvtx range from the collector's lookup of its
`(device_id, correlation_id)`. -/
theorem C1_callback_activity_correlation
    (collected : List CuptiModel.CallbackAnnotationsAndEvents) :
    (∀ corr : Nat,
      (List.lookup corr (CuptiModel.mergedAnnotationMapOf collected)).isSome ↔
        ∃ b ∈ collected, ∃ e ∈ CuptiModel.bufferEvents b,
          e.correlation_id = corr ∧ (e.annot ≠ "" ∨ e.nvtx ≠ "")) ∧
    (∀ (corr : Nat) (info : CuptiModel.AnnotationInfo),
      List.lookup corr (CuptiModel.mergedAnnotationMapOf collected) = some info →
        ∃ b ∈ collected, ∃ e ∈ CuptiModel.bufferEvents b,
          e.correlation_id = corr ∧ info.annot = e.annot ∧ info.nvtx = e.nvtx ∧
          (e.annot ≠ "" ∨ e.nvtx ≠ "")) ∧
    (∀ (st : CuptiModel.TracerState) (c : CuptiModel.CuptiTraceCollector),
      (CuptiModel.GatherAllCallbackAnnotationsAndEvents st c).2.annotationMap =
        CuptiModel.mergedAnnotationMapOf st.perThread) ∧
    (∀ (c : CuptiModel.CuptiTraceCollector) (hasCh : Bool)
        (k : CuptiModel.KernelRecord),
      ∃ ev : CuptiModel.CuptiTracerEvent,
        (CuptiModel.AddKernelActivityEvent hasCh c k).events = c.events ++ [ev] ∧
        ev.annot = (c.LookUpAnnotation k.deviceId k.correlationId).annot ∧
        ev.nvtx = (c.LookUpAnnotation k.deviceId k.correlationId).nvtx ∧
        ev.correlation_id = k.correlationId ∧ ev.device_id = k.deviceId) := by
  refine ⟨?_, ?_, ?_, ?_⟩
  · intro corr
    rw [CuptiModel.mergedAnnotationMapOf_eq,
      CuptiModel.lookup_foldl_gatherStep_isSome]
    simp only [List.lookup_nil, Option.isSome_none, Bool.false_eq_true, false_or]
    constructor
    · rintro ⟨e, he, hprops⟩
      obtain ⟨b, hb, he'⟩ := (CuptiModel.mem_allEvents collected e).mp he
      exact ⟨b, hb, e, he', hprops⟩
    · rintro ⟨b, hb, e, he, hprops⟩
      exact ⟨e, (CuptiModel.mem_allEvents collected e).mpr ⟨b, hb, he⟩, hprops⟩
  · intro corr info h
    rw [CuptiModel.mergedAnnotationMapOf_eq] at h
    rcases CuptiModel.lookup_foldl_gatherStep_some _ _ _ _ h with h' | ⟨e, he, hprops⟩
    · cases h'
    · obtain ⟨b, hb, he'⟩ := (CuptiModel.mem_allEvents collected e).mp he
      exact ⟨b, hb, e, he', hprops⟩
  · intro st c
    rfl
  · intro c hasCh k
    exact ⟨_, rfl, rfl, rfl, rfl, rfl⟩

/-- Witness for C1 at a concrete collected buffer: the single recorded
event with annotation `"a"` and correlation id 5 accounts for the map
entry found at key 5. -/
theorem C1_callback_activity_correlation_witness :
    ∃ b ∈ [{ event_annotation_buffer :=
              (CuptiModel.AppendOnlyBuffer.new CuptiModel.EventWithAnnotation).Emplace
                { correlation_id := 5, annot := "a", nvtx := "" } :
            CuptiModel.CallbackAnnotationsAndEvents }],
      ∃ e ∈ CuptiModel.bufferEvents b,
        e.correlation_id = 5 ∧
        (CuptiModel.AnnotationInfo.mk "a" "").annot = e.annot ∧
        (CuptiModel.AnnotationInfo.mk "a" "").nvtx = e.nvtx ∧
        (e.annot ≠ "" ∨ e.nvtx ≠ "") :=
  ((C1_callback_activity_correlation
      [{ event_annotation_buffer :=
          (CuptiModel.AppendOnlyBuffer.new CuptiModel.EventWithAnnotation).Emplace
            { correlation_id := 5, annot := "a", nvtx := "" } }]).2.1 5
    ⟨"a", ""⟩ (by rfl))

namespace CuptiModel

/-- One `ConvertActivityBuffer` switch iteration appends exactly the
record's events to the collector (and to its log), leaving the
annotation map alone. -/
theorem convertOneRecord_spec (c : CuptiTraceCollector) (r : ActivityRecord) :
    ∃ es : List CuptiTracerEvent,
      (convertOneRecord c r).events = c.events ++ es ∧
      (convertOneRecord c r).log = c.log ++ es.map CollectorOp.addEvent ∧
      (convertOneRecord c r).annotationMap = c.annotationMap ∧
      es.length = r.eventCount := by
  cases r with
  | overhead o =>
    obtain ⟨okind, ostart, oend, oobj⟩ := o
    cases oobj <;>
      first
        | exact ⟨[], (List.append_nil _).symm, (List.append_nil _).symm, rfl, rfl⟩
        | exact ⟨[_], rfl, rfl, rfl, rfl⟩
  | unsupportedKind k =>
    exact ⟨[], (List.append_nil _).symm, (List.append_nil _).symm, rfl, rfl⟩
  | kernel k => exact ⟨[_], rfl, rfl, rfl, rfl⟩
  | cdpKernel k => exact ⟨[_], rfl, rfl, rfl, rfl⟩
  | memcpy m => exact ⟨[_], rfl, rfl, rfl, rfl⟩
  | memcpy2 m => exact ⟨[_], rfl, rfl, rfl, rfl⟩
  | unifiedMemoryCounter u => exact ⟨[_], rfl, rfl, rfl, rfl⟩
  | memory m => exact ⟨[_], rfl, rfl, rfl, rfl⟩
  | memset m => exact ⟨[_], rfl, rfl, rfl, rfl⟩
  | synchronization s => exact ⟨[_], rfl, rfl, rfl, rfl⟩

/-- Folding the switch over a record list. -/
theorem convert_records_spec (records : List ActivityRecord) :
    ∀ c : CuptiTraceCollector,
      ∃ es : List CuptiTracerEvent,
        (records.foldl convertOneRecord c).events = c.events ++ es ∧
        (records.foldl convertOneRecord c).log =
          c.log ++ es.map CollectorOp.addEvent ∧
        (records.foldl convertOneRecord c).annotationMap = c.annotationMap ∧
        es.length = (records.map ActivityRecord.eventCount).sum := by
  induction records with
  | nil =>
    intro c
    exact ⟨[], (List.append_nil _).symm, (List.append_nil _).symm, rfl, rfl⟩
  | cons r records ih =>
    intro c
    obtain ⟨es1, he1, hl1, hm1, hn1⟩ := convertOneRecord_spec c r
    obtain ⟨es2, he2, hl2, hm2, hn2⟩ := ih (convertOneRecord c r)
    refine ⟨es1 ++ es2, ?_, ?_, ?_, ?_⟩
    · rw [List.foldl_cons, he2, he1, List.append_assoc]
    · rw [List.foldl_cons, hl2, hl1, List.map_append, List.append_assoc]
    · rw [List.foldl_cons, hm2, hm1]
    · simp [hn1, hn2]

end CuptiModel

/-- Counterexample to C7 as stated: an overhead record (a supported
activity kind) whose object kind is unknown is not forwarded to the
collector at all — the buffer converts to zero events yet iteration
ends normally with OkStatus. -/
theorem C7_counterexample :
    (CuptiModel.ActivityRecord.overhead ⟨.driverCompiler, 0, 1, .unknown⟩).isSupportedKind
        = true ∧
    (CuptiModel.ConvertActivityBuffer {}
        ⟨[.overhead ⟨.driverCompiler, 0, 1, .unknown⟩], .maxLimitReached, 64⟩).1.events
        = [] ∧
    (CuptiModel.ConvertActivityBuffer {}
        ⟨[.overhead ⟨.driverCompiler, 0, 1, .unknown⟩], .maxLimitReached, 64⟩).2
        = .ok () :=
  ⟨rfl, rfl, rfl⟩

/-- C7 (amended): `ConvertActivityBuffer` iterates over the records of
the buffer, forwarding each record of a supported kind to the collector
as one event — except overhead records with an unknown or unexpected
object kind, which are dropped without an event — skipping unsupported
kinds, and returns OkStatus exactly when iteration ends with
CUPTI_ERROR_MAX_LIMIT_REACHED; any other terminal status yields an
Internal error. -/
theorem C7_convert_activity_buffer (c : CuptiModel.CuptiTraceCollector)
    (buf : CuptiModel.ActivityBufferContents) :
    ((CuptiModel.ConvertActivityBuffer c buf).1.events.length =
        c.events.length +
          (buf.records.map CuptiModel.ActivityRecord.eventCount).sum) ∧
    ((CuptiModel.ConvertActivityBuffer c buf).2 = .ok () ↔
        buf.terminal = CuptiModel.CuptiTerminalStatus.maxLimitReached) ∧
    (∀ code, buf.terminal = CuptiModel.CuptiTerminalStatus.otherError code →
        (CuptiModel.ConvertActivityBuffer c buf).2 =
          .error ⟨.internal, "Parse cupti activity buffer error."⟩) ∧
    (∀ r : CuptiModel.ActivityRecord, r.isSupportedKind = false →
        r.eventCount = 0) ∧
    (∀ r : CuptiModel.ActivityRecord, r.isSupportedKind = true →
        r.eventCount = (if r.overheadDropped then 0 else 1)) := by
  refine ⟨?_, ?_, ?_, ?_, ?_⟩
  · obtain ⟨es, he, -, -, hn⟩ := CuptiModel.convert_records_spec buf.records c
    unfold CuptiModel.ConvertActivityBuffer
    cases buf.terminal <;> simp [he, hn]
  · unfold CuptiModel.ConvertActivityBuffer
    cases buf.terminal <;> simp
  · intro code hterm
    unfold CuptiModel.ConvertActivityBuffer
    rw [hterm]
  · intro r h
    unfold CuptiModel.ActivityRecord.eventCount
    rw [h]
    rfl
  · intro r h
    unfold CuptiModel.ActivityRecord.eventCount
    rw [h]
    cases hd : r.overheadDropped <;> rfl

/-- Witness for C7 at a concrete buffer: one kernel record and one
unsupported record convert to exactly one event, with OkStatus. -/
theorem C7_convert_activity_buffer_witness :
    ((CuptiModel.ConvertActivityBuffer {}
        ⟨[.kernel ⟨"k", 0, 1, 0, 0, 0, 9, 0, 0, 0, 1, 1, 1, 1, 1, 1, 0, 0⟩,
          .unsupportedKind 99], .maxLimitReached, 64⟩).1.events.length = 1) ∧
    ((CuptiModel.ConvertActivityBuffer {}
        ⟨[.kernel ⟨"k", 0, 1, 0, 0, 0, 9, 0, 0, 0, 1, 1, 1, 1, 1, 1, 0, 0⟩,
          .unsupportedKind 99], .maxLimitReached, 64⟩).2 =
      .error ⟨.internal, "Parse cupti activity buffer error."⟩ ↔ False) := by
  constructor
  · exact (C7_convert_activity_buffer {}
      ⟨[.kernel ⟨"k", 0, 1, 0, 0, 0, 9, 0, 0, 0, 1, 1, 1, 1, 1, 1, 0, 0⟩,
        .unsupportedKind 99], .maxLimitReached, 64⟩).1
  · constructor
    · intro h
      have hok := (C7_convert_activity_buffer {}
        ⟨[.kernel ⟨"k", 0, 1, 0, 0, 0, 9, 0, 0, 0, 1, 1, 1, 1, 1, 1, 0, 0⟩,
          .unsupportedKind 99], .maxLimitReached, 64⟩).2.1.mpr rfl
      rw [hok] at h
      exact Except.noConfusion h
    · intro h
      exact absurd h not_false

namespace CuptiModel

/-- The collector `ConvertActivityBuffer` returns is the fold of the
switch over the records, whatever the terminal status. -/
theorem convertActivityBuffer_fst (c : CuptiTraceCollector)
    (buf : ActivityBufferContents) :
    (ConvertActivityBuffer c buf).1 = buf.records.foldl convertOneRecord c := by
  unfold ConvertActivityBuffer
  cases buf.terminal <;> rfl

/-- `FinalizeActivityBuffers` appends exactly the events of all cached
buffers, in order, to the collector (and to its log). -/
theorem finalizeActivityBuffers_spec (bufs : List ActivityBufferContents) :
    ∀ c : CuptiTraceCollector,
      ∃ es : List CuptiTracerEvent,
        (FinalizeActivityBuffers c bufs).events = c.events ++ es ∧
        (FinalizeActivityBuffers c bufs).log =
          c.log ++ es.map CollectorOp.addEvent ∧
        (FinalizeActivityBuffers c bufs).annotationMap = c.annotationMap ∧
        es.length = (bufs.map
          (fun b => (b.records.map ActivityRecord.eventCount).sum)).sum := by
  induction bufs with
  | nil =>
    intro c
    exact ⟨[], (List.append_nil _).symm, (List.append_nil _).symm, rfl, rfl⟩
  | cons buf bufs ih =>
    intro c
    obtain ⟨es1, he1, hl1, hm1, hn1⟩ := convert_records_spec buf.records c
    obtain ⟨es2, he2, hl2, hm2, hn2⟩ := ih (ConvertActivityBuffer c buf).1
    refine ⟨es1 ++ es2, ?_, ?_, ?_, ?_⟩
    · unfold FinalizeActivityBuffers at he2 ⊢
      rw [List.foldl_cons, he2, convertActivityBuffer_fst, he1,
        List.append_assoc]
    · unfold FinalizeActivityBuffers at hl2 ⊢
      rw [List.foldl_cons, hl2, convertActivityBuffer_fst, hl1,
        List.map_append, List.append_assoc]
    · unfold FinalizeActivityBuffers at hm2 ⊢
      rw [List.foldl_cons, hm2, convertActivityBuffer_fst, hm1]
    · simp [hn1, hn2]

end CuptiModel

/-- Counterexample to C4 as stated: when the CUPTI interface has been
disabled (`cupti_interface_->Disabled()`), a non-empty buffer arriving
while activity tracing is still enabled and the estimated event count is
below the limit is reclaimed (with an Internal error), not appended to
`activity_buffers_` — a fourth reclaim case the claim does not list. -/
theorem C4_counterexample :
    (CuptiModel.ProcessActivityBuffer ⟨true, true, 0, 0, 0, 100, []⟩
        ⟨[], .maxLimitReached, 64⟩ none).2.2 =
      CuptiModel.BufferDisposition.reclaimed ∧
    (64 : Nat) ≠ 0 ∧
    (CuptiModel.ActivityProcessState.mk true true 0 0 0 100
        []).activity_tracing_enabled = true ∧
    (CuptiModel.ActivityProcessState.mk true true 0 0 0 100
        []).estimated_num_activity_events <
      (CuptiModel.ActivityProcessState.mk true true 0 0 0 100
        []).max_activity_api_events ∧
    (CuptiModel.ProcessActivityBuffer ⟨true, true, 0, 0, 0, 100, []⟩
        ⟨[], .maxLimitReached, 64⟩ none).2.1.activity_buffers = [] ∧
    (CuptiModel.ProcessActivityBuffer ⟨true, true, 0, 0, 0, 100, []⟩
        ⟨[], .maxLimitReached, 64⟩ none).1 =
      .error ⟨.internal, "Disabled."⟩ := by
  refine ⟨rfl, ?_, rfl, ?_, rfl, rfl⟩ <;> decide

/-- C4 (amended): every buffer handed to `ProcessActivityBuffer` is
disposed of in exactly one way — reclaimed to the pool when its size is
0, when activity tracing is already disabled, when the CUPTI interface
has been disabled (then with an Internal error), or when the estimated
activity-event count has reached `max_activity_api_events` (the
estimated dropped-event count then grows by ceil(size/64)); otherwise
it is appended to `activity_buffers_` and not reclaimed — and
`FinalizeActivityBuffers` later converts every cached buffer. -/
theorem C4_buffer_pool_lifecycle (st : CuptiModel.ActivityProcessState)
    (buf : CuptiModel.ActivityBufferContents) (droppedRecords : Option Nat) :
    ((CuptiModel.ProcessActivityBuffer st buf droppedRecords).2.2 =
        CuptiModel.BufferDisposition.reclaimed ↔
      (buf.size = 0 ∨ st.activity_tracing_enabled = false ∨
        st.interface_disabled = true ∨
        st.max_activity_api_events ≤ st.estimated_num_activity_events)) ∧
    (¬(buf.size = 0 ∨ st.activity_tracing_enabled = false ∨
        st.interface_disabled = true ∨
        st.max_activity_api_events ≤ st.estimated_num_activity_events) →
      (CuptiModel.ProcessActivityBuffer st buf droppedRecords).2.2 =
          CuptiModel.BufferDisposition.cached ∧
      (CuptiModel.ProcessActivityBuffer st buf
          droppedRecords).2.1.activity_buffers =
        st.activity_buffers ++ [buf]) ∧
    (buf.size ≠ 0 → st.activity_tracing_enabled = true →
      st.interface_disabled = false →
      st.max_activity_api_events ≤ st.estimated_num_activity_events →
      (CuptiModel.ProcessActivityBuffer st buf
          droppedRecords).2.1.estimated_num_dropped_activity_events =
        st.estimated_num_dropped_activity_events +
          (buf.size + CuptiModel.kMaxCuptiActivityEventSize - 1) /
            CuptiModel.kMaxCuptiActivityEventSize) ∧
    (buf.size ≠ 0 → st.activity_tracing_enabled = true →
      st.interface_disabled = true →
      (CuptiModel.ProcessActivityBuffer st buf droppedRecords).1 =
        .error ⟨.internal, "Disabled."⟩) ∧
    (∀ (c : CuptiModel.CuptiTraceCollector)
        (bufs : List CuptiModel.ActivityBufferContents),
      (CuptiModel.FinalizeActivityBuffers c bufs).events.length =
        c.events.length + (bufs.map
          (fun b => (b.records.map CuptiModel.ActivityRecord.eventCount).sum)).sum) := by
  refine ⟨?_, ?_, ?_, ?_, ?_⟩
  · unfold CuptiModel.ProcessActivityBuffer
    by_cases h1 : buf.size = 0
    · simp [h1]
    · rw [if_neg h1]
      by_cases h2 : st.activity_tracing_enabled = false
      · simp [h1, h2]
      · rw [if_neg h2]
        by_cases h3 : st.interface_disabled
        · simp [h1, h2, h3]
        · rw [if_neg h3]
          cases droppedRecords with
          | none =>
            by_cases h4 :
              st.max_activity_api_events ≤ st.estimated_num_activity_events
            · simp [h1, h2, h3, h4]
            · simp [h1, h2, h3, h4]
          | some d =>
            by_cases h4 :
              st.max_activity_api_events ≤ st.estimated_num_activity_events
            · simp [h1, h2, h3, h4]
            · simp [h1, h2, h3, h4]
  · intro hnone
    push_neg at hnone
    obtain ⟨h1, h2, h3, h4⟩ := hnone
    have h3' : ¬ st.interface_disabled = true := by simp [h3]
    unfold CuptiModel.ProcessActivityBuffer
    rw [if_neg h1, if_neg h2, if_neg h3']
    cases droppedRecords with
    | none =>
      rw [if_neg (Nat.not_le.mpr h4)]
      exact ⟨rfl, rfl⟩
    | some d =>
      rw [if_neg (Nat.not_le.mpr h4)]
      exact ⟨rfl, rfl⟩
  · intro h1 h2 h3 h4
    have h2' : ¬ st.activity_tracing_enabled = false := by simp [h2]
    have h3' : ¬ st.interface_disabled = true := by simp [h3]
    unfold CuptiModel.ProcessActivityBuffer
    rw [if_neg h1, if_neg h2', if_neg h3']
    cases droppedRecords with
    | none => rw [if_pos h4]
    | some d => rw [if_pos h4]
  · intro h1 h2 h3
    have h2' : ¬ st.activity_tracing_enabled = false := by simp [h2]
    unfold CuptiModel.ProcessActivityBuffer
    rw [if_neg h1, if_neg h2', if_pos h3]
  · intro c bufs
    obtain ⟨es, he, -, -, hn⟩ := CuptiModel.finalizeActivityBuffers_spec bufs c
    rw [he, List.length_append, hn]

/-- Witness for C4 at a concrete state: a non-empty buffer arriving with
tracing enabled, the interface alive and room below the limit is
cached, appended at the end of `activity_buffers_`. -/
theorem C4_buffer_pool_lifecycle_witness :
    (CuptiModel.ProcessActivityBuffer ⟨true, false, 0, 0, 0, 100, []⟩
        ⟨[], .maxLimitReached, 64⟩ none).2.2 =
      CuptiModel.BufferDisposition.cached ∧
    (CuptiModel.ProcessActivityBuffer ⟨true, false, 0, 0, 0, 100, []⟩
        ⟨[], .maxLimitReached, 64⟩ none).2.1.activity_buffers =
      [⟨[], .maxLimitReached, 64⟩] :=
  (C4_buffer_pool_lifecycle ⟨true, false, 0, 0, 0, 100, []⟩
      ⟨[], .maxLimitReached, 64⟩ none).2.1 (by decide)

namespace CuptiModel

/-- Folding `AddEvent` over the events of one buffer. -/
theorem foldl_addEvent_spec (l : List EventWithAnnotation) :
    ∀ c : CuptiTraceCollector,
      (l.foldl (fun c ew => c.AddEvent ew.event) c).events =
        c.events ++ l.map EventWithAnnotation.event ∧
      (l.foldl (fun c ew => c.AddEvent ew.event) c).log =
        c.log ++ (l.map EventWithAnnotation.event).map CollectorOp.addEvent ∧
      (l.foldl (fun c ew => c.AddEvent ew.event) c).annotationMap =
        c.annotationMap := by
  induction l with
  | nil => intro c; exact ⟨(List.append_nil _).symm, (List.append_nil _).symm, rfl⟩
  | cons ew l ih =>
    intro c
    obtain ⟨he, hl, hm⟩ := ih (c.AddEvent ew.event)
    refine ⟨?_, ?_, ?_⟩
    · rw [List.foldl_cons, he]
      simp [CuptiTraceCollector.AddEvent]
    · rw [List.foldl_cons, hl]
      simp [CuptiTraceCollector.AddEvent]
    · rw [List.foldl_cons, hm]
      rfl

/-- `FinalizeApiCallbackBuffers` forwards exactly the gathered events,
in order, to the collector. -/
theorem finalizeApiCallbackBuffers_spec
    (collected : List CallbackAnnotationsAndEvents) :
    ∀ c : CuptiTraceCollector,
      (FinalizeApiCallbackBuffers c collected).events =
        c.events ++ collectedEventsOf collected ∧
      (FinalizeApiCallbackBuffers c collected).log =
        c.log ++ (collectedEventsOf collected).map CollectorOp.addEvent ∧
      (FinalizeApiCallbackBuffers c collected).annotationMap =
        c.annotationMap := by
  induction collected with
  | nil =>
    intro c
    exact ⟨(List.append_nil _).symm, (List.append_nil _).symm, rfl⟩
  | cons b cs ih =>
    intro c
    obtain ⟨he1, hl1, hm1⟩ := foldl_addEvent_spec (bufferEvents b) c
    obtain ⟨he2, hl2, hm2⟩ :=
      ih ((bufferEvents b).foldl (fun c ew => c.AddEvent ew.event) c)
    refine ⟨?_, ?_, ?_⟩
    · unfold FinalizeApiCallbackBuffers at he2 ⊢
      rw [List.foldl_cons, he2, he1]
      unfold collectedEventsOf
      rw [List.map_cons, List.flatten_cons, List.append_assoc]
    · unfold FinalizeApiCallbackBuffers at hl2 ⊢
      rw [List.foldl_cons, hl2, hl1]
      unfold collectedEventsOf
      rw [List.map_cons, List.flatten_cons, List.map_append, List.append_assoc]
    · unfold FinalizeApiCallbackBuffers at hm2 ⊢
      rw [List.foldl_cons, hm2, hm1]

/-- `Flush` only appends the flush marker to the log. -/
theorem flush_log (c : CuptiTraceCollector) :
    (c.Flush).log = c.log ++ [CollectorOp.flushCall] := rfl

/-- `SetAnnotationMap` only appends the set-map marker to the log. -/
theorem setMap_log (c : CuptiTraceCollector) (m : AnnotationMap) :
    (c.SetAnnotationMap m).log = c.log ++ [CollectorOp.setMap m] := rfl

end CuptiModel

/-- C3: `Disable()` performs its phases in source order — disable API
tracing, disable activity tracing, finalize, sync-and-flush the driver
hook, gather per-thread callback events, forward all gathered callback
events, convert all cached activity buffers — and only then calls
`collector_->Flush()`, exactly once; the collector log shows the single
flush after the annotation map and after every forwarded callback and
converted activity event; afterwards `collector_` is null and `option_`
is empty (and the cached buffer list drained). -/
theorem C3_disable_flush_protocol (st : CuptiModel.TracerState)
    (c : CuptiModel.CuptiTraceCollector) (h : st.collector = some c) :
    ∃ (st' : CuptiModel.TracerState) (c' : CuptiModel.CuptiTraceCollector)
      (actOps : List CuptiModel.CollectorOp),
      CuptiModel.Disable st = some (st', c',
        [CuptiModel.DisablePhase.disableApiTracing,
         CuptiModel.DisablePhase.disableActivityTracing,
         CuptiModel.DisablePhase.cleanUp,
         CuptiModel.DisablePhase.finalizePhase,
         CuptiModel.DisablePhase.syncAndFlush,
         CuptiModel.DisablePhase.gatherAllCallbackAnnotationsAndEvents,
         CuptiModel.DisablePhase.finalizeApiCallbackBuffers,
         CuptiModel.DisablePhase.finalizeActivityBuffers,
         CuptiModel.DisablePhase.collectorFlush]) ∧
      c'.log = c.log ++
        [CuptiModel.CollectorOp.setMap
          (CuptiModel.mergedAnnotationMapOf st.perThread)] ++
        (CuptiModel.collectedEventsOf st.perThread).map
          CuptiModel.CollectorOp.addEvent ++
        actOps ++ [CuptiModel.CollectorOp.flushCall] ∧
      (∀ op ∈ actOps, ∃ e, op = CuptiModel.CollectorOp.addEvent e) ∧
      actOps.length = (st.activity_buffers.map
        (fun b => (b.records.map CuptiModel.ActivityRecord.eventCount).sum)).sum ∧
      st'.collector = none ∧ st'.option_ = none ∧
      st'.activity_buffers = [] := by
  have hD : CuptiModel.Disable st = some
      (⟨false, false, none, none,
        st.perThread.map CuptiModel.CallbackAnnotationsAndEvents.clear,
        st.perThread, [], CuptiModel.droppedCallbackCountOf st.perThread, []⟩,
       (CuptiModel.FinalizeActivityBuffers
          (CuptiModel.FinalizeApiCallbackBuffers
            (c.SetAnnotationMap (CuptiModel.mergedAnnotationMapOf st.perThread))
            st.perThread)
          st.activity_buffers).Flush,
       [CuptiModel.DisablePhase.disableApiTracing,
        CuptiModel.DisablePhase.disableActivityTracing,
        CuptiModel.DisablePhase.cleanUp,
        CuptiModel.DisablePhase.finalizePhase,
        CuptiModel.DisablePhase.syncAndFlush,
        CuptiModel.DisablePhase.gatherAllCallbackAnnotationsAndEvents,
        CuptiModel.DisablePhase.finalizeApiCallbackBuffers,
        CuptiModel.DisablePhase.finalizeActivityBuffers,
        CuptiModel.DisablePhase.collectorFlush]) := by
    unfold CuptiModel.Disable
    rw [h]
    rfl
  obtain ⟨hApiE, hApiL, hApiM⟩ :=
    CuptiModel.finalizeApiCallbackBuffers_spec st.perThread
      (c.SetAnnotationMap (CuptiModel.mergedAnnotationMapOf st.perThread))
  obtain ⟨es, hActE, hActL, hActM, hActN⟩ :=
    CuptiModel.finalizeActivityBuffers_spec st.activity_buffers
      (CuptiModel.FinalizeApiCallbackBuffers
        (c.SetAnnotationMap (CuptiModel.mergedAnnotationMapOf st.perThread))
        st.perThread)
  refine ⟨_, _, es.map CuptiModel.CollectorOp.addEvent, hD, ?_, ?_, ?_,
    rfl, rfl, rfl⟩
  · rw [CuptiModel.flush_log, hActL, hApiL, CuptiModel.setMap_log]
  · intro op hop
    obtain ⟨e, -, rfl⟩ := List.mem_map.mp hop
    exact ⟨e, rfl⟩
  · rw [List.length_map, hActN]

/-- Witness for C3 at a concrete enabled tracer: disabling flushes the
collector exactly once at the end, with the phases in source order. -/
theorem C3_disable_flush_protocol_witness :
    ∃ (st' : CuptiModel.TracerState) (c' : CuptiModel.CuptiTraceCollector)
      (actOps : List CuptiModel.CollectorOp),
      CuptiModel.Disable
        { api_tracing_enabled := true
          activity_tracing_enabled := true
          collector := some {}
          option_ := some {}
          perThread := []
          collected := []
          merged := []
          dropped_callback_event_count := 0
          activity_buffers := [] } = some (st', c',
        [CuptiModel.DisablePhase.disableApiTracing,
         CuptiModel.DisablePhase.disableActivityTracing,
         CuptiModel.DisablePhase.cleanUp,
         CuptiModel.DisablePhase.finalizePhase,
         CuptiModel.DisablePhase.syncAndFlush,
         CuptiModel.DisablePhase.gatherAllCallbackAnnotationsAndEvents,
         CuptiModel.DisablePhase.finalizeApiCallbackBuffers,
         CuptiModel.DisablePhase.finalizeActivityBuffers,
         CuptiModel.DisablePhase.collectorFlush]) ∧
      c'.log = ({} : CuptiModel.CuptiTraceCollector).log ++
        [CuptiModel.CollectorOp.setMap (CuptiModel.mergedAnnotationMapOf [])] ++
        (CuptiModel.collectedEventsOf []).map CuptiModel.CollectorOp.addEvent ++
        actOps ++ [CuptiModel.CollectorOp.flushCall] ∧
      (∀ op ∈ actOps, ∃ e, op = CuptiModel.CollectorOp.addEvent e) ∧
      actOps.length = (([] : List CuptiModel.ActivityBufferContents).map
        (fun b => (b.records.map CuptiModel.ActivityRecord.eventCount).sum)).sum ∧
      st'.collector = none ∧ st'.option_ = none ∧
      st'.activity_buffers = [] := by
  obtain ⟨st', c', actOps, h1, h2, h3, h4, h5, h6, h7⟩ :=
    C3_disable_flush_protocol
      { api_tracing_enabled := true
        activity_tracing_enabled := true
        collector := some {}
        option_ := some {}
        perThread := []
        collected := []
        merged := []
        dropped_callback_event_count := 0
        activity_buffers := [] } {} rfl
  exact ⟨st', c', actOps, h1, h2, h3, h4, h5, h6, h7⟩

namespace MhloExportModel

/-- Operand resolution reads only the operands' value-map entries. -/
theorem resolveOperands_congr (operands : List MlirValue) :
    ∀ (vm vm' : ValueMap),
      (∀ v ∈ operands, List.lookup v vm = List.lookup v vm') →
      resolveOperands vm operands = resolveOperands vm' operands := by
  induction operands with
  | nil => intro vm vm' _; rfl
  | cons v vs ih =>
    intro vm vm' hagree
    unfold resolveOperands
    rw [hagree v (List.mem_cons_self v vs),
      ih vm vm' (fun w hw => hagree w (List.mem_cons_of_mem v hw))]

/-- Every kind in `handWrittenFailureOps` maps to the unconditionally
failing entry in the table fragment. -/
theorem lookup_failure_ops (k : String) (hk : k ∈ handWrittenFailureOps) :
    List.lookup k exportTableFragment = some unimplementedExportEntry := by
  simp only [handWrittenFailureOps, List.mem_cons, List.not_mem_nil,
    or_false] at hk
  rcases hk with rfl | rfl | rfl | rfl | rfl | rfl | rfl | rfl | rfl <;> rfl

end MhloExportModel

/-- Counterexample to C5 as stated: the hand-written `ExportXlaOp`
overload for `mhlo.copy` consults `SimplyReturnedOp` — a predicate on
the op's operands and users in the enclosing function.  With identical
attributes (`cross_program_prefetch_index` present) and identical
lowered operand values, export fails when the op is not simply returned
and produces the copy when it is, so the produced HLO is not a function
of only the op's attributes and operand values. -/
theorem C5_counterexample :
    MhloExportModel.ExportXlaOpCopy ⟨some 0, 1, 2⟩
        [(1, MhloExportModel.XlaOp.param 0)] false =
      MhloExportModel.ExportResult.failure ∧
    MhloExportModel.ExportXlaOpCopy ⟨some 0, 1, 2⟩
        [(1, MhloExportModel.XlaOp.param 0)] true =
      MhloExportModel.ExportResult.success
        [(2, MhloExportModel.XlaOp.node .copy [] [.param 0])] :=
  ⟨rfl, rfl⟩

/-- C5 (amended): the exporter dispatches case-by-case on the operation
kind; a kind with no dedicated entry fails, a dedicated entry that
declines fails, the hand-written unconditionally-failing overloads fail,
and the export result depends on nothing beyond the op, its dedicated
entry and its operands' lowered values — except that some hand-written
overloads additionally consult how the op's results are used (CopyOp:
success still only ever binds the copy of the looked-up operand, and
with `cross_program_prefetch_index` present it requires the op to be
simply returned); `ExportXlaOperatorWrapped` special-cases AddOp on i1
as xor. -/
theorem C5_export_dispatch :
    (∀ (table : MhloExportModel.ExportTable)
        (op : MhloExportModel.MhloOperation)
        (vm vm' : MhloExportModel.ValueMap),
      (∀ v ∈ op.operands, List.lookup v vm = List.lookup v vm') →
      MhloExportModel.ExportXlaOperator table op vm =
        MhloExportModel.ExportXlaOperator table op vm') ∧
    (∀ (table : MhloExportModel.ExportTable)
        (op : MhloExportModel.MhloOperation) (vm : MhloExportModel.ValueMap),
      List.lookup op.kind table = none →
      MhloExportModel.ExportXlaOperator table op vm =
        MhloExportModel.ExportResult.failure) ∧
    (∀ (table : MhloExportModel.ExportTable)
        (op : MhloExportModel.MhloOperation) (vm : MhloExportModel.ValueMap)
        (f : MhloExportModel.PerOpEntry) (args : List MhloExportModel.XlaOp),
      List.lookup op.kind table = some f →
      MhloExportModel.resolveOperands vm op.operands = some args →
      f op.attrs args = none →
      MhloExportModel.ExportXlaOperator table op vm =
        MhloExportModel.ExportResult.failure) ∧
    (∀ (op : MhloExportModel.MhloOperation) (vm : MhloExportModel.ValueMap),
      op.kind ∈ MhloExportModel.handWrittenFailureOps →
      MhloExportModel.ExportXlaOperator MhloExportModel.exportTableFragment
        op vm = MhloExportModel.ExportResult.failure) ∧
    (∀ (cp : MhloExportModel.CopyOpData) (vm : MhloExportModel.ValueMap)
        (sr : Bool) (updates : List (MhloExportModel.MlirValue ×
          MhloExportModel.XlaOp)),
      MhloExportModel.ExportXlaOpCopy cp vm sr =
          MhloExportModel.ExportResult.success updates →
      ∃ a, List.lookup cp.operand vm = some a ∧
        updates = [(cp.result, MhloExportModel.XlaOp.node .copy [] [a])] ∧
        (cp.cross_program_prefetch_index.isSome = true → sr = true)) ∧
    (∀ (table : MhloExportModel.ExportTable)
        (op : MhloExportModel.MhloOperation) (vm : MhloExportModel.ValueMap)
        (lhs rhs : MhloExportModel.MlirValue) (a b : MhloExportModel.XlaOp),
      op.kind = "mhlo.add" → op.result_is_i1 = true →
      op.operands = [lhs, rhs] →
      List.lookup lhs vm = some a → List.lookup rhs vm = some b →
      MhloExportModel.ExportXlaOperatorWrapped table op vm =
        MhloExportModel.ExportResult.success
          (op.results.zip [MhloExportModel.XlaOp.node .xorOp [] [a, b]])) := by
  refine ⟨?_, ?_, ?_, ?_, ?_, ?_⟩
  · intro table op vm vm' hagree
    unfold MhloExportModel.ExportXlaOperator
    rw [MhloExportModel.resolveOperands_congr op.operands vm vm' hagree]
  · intro table op vm hnone
    unfold MhloExportModel.ExportXlaOperator
    rw [hnone]
  · intro table op vm f args hf hres hfail
    unfold MhloExportModel.ExportXlaOperator
    rw [hf]
    dsimp only
    rw [hres]
    dsimp only
    rw [hfail]
  · intro op vm hmem
    have hf := MhloExportModel.lookup_failure_ops op.kind hmem
    unfold MhloExportModel.ExportXlaOperator
    rw [hf]
    cases hres : MhloExportModel.resolveOperands vm op.operands with
    | none => rfl
    | some args => rfl
  · intro cp vm sr updates h
    unfold MhloExportModel.ExportXlaOpCopy at h
    by_cases hcond : (cp.cross_program_prefetch_index.isSome && !sr) = true
    · rw [if_pos hcond] at h
      exact MhloExportModel.ExportResult.noConfusion h
    · rw [if_neg hcond] at h
      rcases hll : List.lookup cp.operand vm with _ | a
      · rw [hll] at h
        exact MhloExportModel.ExportResult.noConfusion h
      · rw [hll] at h
        injection h with h
        refine ⟨a, rfl, h.symm, ?_⟩
        intro hsome
        rcases hsr : sr with _ | _
        · rw [hsome, hsr] at hcond
          exact absurd rfl hcond
        · rfl
  · intro table op vm lhs rhs a b hkind hi1 hops hla hlb
    unfold MhloExportModel.ExportXlaOperatorWrapped
    rw [if_pos ⟨hkind, hi1⟩, hops]
    dsimp only
    rw [hla, hlb]

/-- Witness for C5 at a concrete op: `mhlo.add` on an `i1` tensor with
both operands lowered exports as the xor of the two operand values. -/
theorem C5_export_dispatch_witness :
    MhloExportModel.ExportXlaOperatorWrapped []
        ⟨"mhlo.add", [], [1, 2], [3], true⟩
        [(1, MhloExportModel.XlaOp.param 0), (2, MhloExportModel.XlaOp.param 1)] =
      MhloExportModel.ExportResult.success
        ([3].zip [MhloExportModel.XlaOp.node .xorOp []
          [MhloExportModel.XlaOp.param 0, MhloExportModel.XlaOp.param 1]]) :=
  C5_export_dispatch.2.2.2.2.2 [] ⟨"mhlo.add", [], [1, 2], [3], true⟩
    [(1, MhloExportModel.XlaOp.param 0), (2, MhloExportModel.XlaOp.param 1)]
    1 2 (MhloExportModel.XlaOp.param 0) (MhloExportModel.XlaOp.param 1)
    rfl rfl rfl rfl rfl

/-- Witness for C2: with the cap at 0 (unlimited), a handled driver-API
exit callback appends one event and reports `exitHookInvoked`. -/
theorem C2_per_thread_buffering_witness :
    (CuptiModel.HandleCallback
        ⟨true, true, 0, 4, "ann", "rng"⟩ {} {} .driverApi 7
        ⟨.exit, false, 11, some 2⟩).1 =
      CuptiModel.CallbackEffect.exitHookInvoked :=
  ((C2_per_thread_buffering ⟨true, true, 0, 4, "ann", "rng"⟩ {} {} .driverApi 7
      ⟨.exit, false, 11, some 2⟩ 2 rfl rfl rfl rfl rfl rfl (by decide) rfl).1
    (Or.inr (by decide))).1
